import Mathlib

/-!
Shallow embedding of the ITIL_App_Back database entity layer
(`src/db/src/entities/*` and `src/db/src/entity_helpers.rs`).

Machine conventions: `Uuid` and timestamps are modelled as `Nat`
(both are opaque identifiers/instants for the properties at stake);
database tables are lists of rows; a stateful operation takes the
committed database state and returns the operation result together
with the committed state after the call (a rolled-back transaction
leaves the committed state unchanged).
-/

namespace ItilBack

/-- Identifier type standing in for `uuid::Uuid`. -/
abbrev Uuid := Nat

/-- Instant type standing in for `chrono::DateTime<Utc>`. -/
abbrev Timestamp := Nat

/-- The `crate::Error` taxonomy of the db crate, as matched on in
`src/web/src/error.rs`: `ValidationError`, `NoRecordFound`,
`ConstraintError` and `DbError`. -/
inductive DbErr where
  | validation
  | noRecordFound
  | constraint
  | dbError
deriving DecidableEq, Repr

/-- `entity_helpers::PatchField<T>`: tri-state patch value. -/
inductive PatchField (T : Type) where
  | missing
  | null
  | value (v : T)
deriving DecidableEq, Repr

namespace PatchField

/-- `PatchField::leave_unchanged`. -/
def leave_unchanged : PatchField T → Bool
  | .missing => true
  | .null => false
  | .value _ => false

/-- `impl From<Option<T>> for PatchField<T>`. -/
def ofOption : Option T → PatchField T
  | some v => .value v
  | none => .null

/-- `impl Into<Option<T>> for PatchField<T>`. -/
def intoOption : PatchField T → Option T
  | .missing => none
  | .null => none
  | .value v => some v

/-- The `Default` impl: `PatchField::Missing`. -/
def default : PatchField T := .missing

end PatchField

/-- Modelled from the spec: `entity_helpers::validate_not_null`, whose
definition is not under `src/` (only its call sites in the per-entity
`validate_required_fields` functions are). Per the spec's required-field
guard, a required attribute's patch value may be `Missing` (outer `None`,
unchanged) but never explicitly nulled (`Some(None)`); an explicit null
fails validation. -/
def validate_not_null : Option (Option T) → Bool
  | some none => false
  | some (some _) => true
  | none => true

/-- `#[validate(length(min, max))]` on a `String` field
(validator counts characters). -/
def lenBetween (lo hi : Nat) (s : String) : Bool :=
  lo ≤ s.length && s.length ≤ hi

/-- `#[validate(length(...))]` on an `Option<String>` field:
checked only when the value is present. -/
def lenBetweenOpt (lo hi : Nat) : Option String → Bool
  | some s => lenBetween lo hi s
  | none => true

/-- `#[validate(length(...))]` on an `Option<Option<String>>` field:
checked only when an inner value is present. -/
def lenBetweenOptOpt (lo hi : Nat) : Option (Option String) → Bool
  | some (some s) => lenBetween lo hi s
  | some none => true
  | none => true

/-- `impl ValidateLength for PatchField`: only `Value` is checked. -/
def lenBetweenPatch (lo hi : Nat) : PatchField String → Bool
  | .value s => lenBetween lo hi s
  | .null => true
  | .missing => true

/-! ## Incidents (`src/db/src/entities/incidents.rs`) -/

/-- `IncidentStatus` (the `open` variant is spelled `open_` because
`open` is a Lean keyword). -/
inductive IncidentStatus where
  | open_
  | inProgress
  | closed
deriving DecidableEq, Repr

/-- `IncidentImpact`. -/
inductive IncidentImpact where
  | high
  | medium
  | low
deriving DecidableEq, Repr

/-- `IncidentImpact::weight`. -/
def IncidentImpact.weight : IncidentImpact → Nat
  | .high => 3
  | .medium => 2
  | .low => 1

/-- `IncidentUrgency`. -/
inductive IncidentUrgency where
  | high
  | medium
  | low
deriving DecidableEq, Repr

/-- `IncidentUrgency::weight`. -/
def IncidentUrgency.weight : IncidentUrgency → Nat
  | .high => 3
  | .medium => 2
  | .low => 1

/-- `IncidentPrio`. -/
inductive IncidentPrio where
  | critical
  | high
  | moderate
  | low
deriving DecidableEq, Repr

/-- `IncidentPrio::from(impact, urgency)`: lookup over the product of
the two weights. The source's unreachable arm aborts the process, which
is modelled as `none`; all reachable arms produce `some`. -/
def IncidentPrio.fromImpactUrgency
    (impact : IncidentImpact) (urgency : IncidentUrgency) : Option IncidentPrio :=
  let coef := impact.weight * urgency.weight
  if coef = 1 ∨ coef = 2 then some .low
  else if coef = 3 ∨ coef = 4 then some .moderate
  else if coef = 6 then some .high
  else if coef = 9 then some .critical
  else none

/-- The `Incident` record. -/
structure Incident where
  id : Uuid
  title : String
  status : IncidentStatus
  created_at : Timestamp
  resolved_at : Option Timestamp
  impact : IncidentImpact
  urgency : IncidentUrgency
  owner : Option String
  asignee : Option String
  description : String
deriving DecidableEq, Repr

/-- `Incident::priority`. -/
def Incident.priority (i : Incident) : Option IncidentPrio :=
  IncidentPrio.fromImpactUrgency i.impact i.urgency

/-- `IncidentCreateset`. -/
structure IncidentCreateset where
  title : String
  status : Option IncidentStatus
  created_at : Option Timestamp
  resolved_at : Option Timestamp
  impact : IncidentImpact
  urgency : IncidentUrgency
  owner : Option String
  asignee : Option String
  description : String
deriving DecidableEq, Repr

/-- Field-level validations of `IncidentCreateset` (`derive(Validate)`). -/
def IncidentCreateset.validate (c : IncidentCreateset) : Bool :=
  lenBetween 1 255 c.title &&
  lenBetweenOpt 0 1024 c.owner &&
  lenBetweenOpt 0 1024 c.asignee &&
  lenBetween 0 1024 c.description

/-- `IncidentUpdateset`: every field uses the double-option encoding
(`serde_with::rust::double_option`). -/
structure IncidentUpdateset where
  title : Option (Option String)
  status : Option (Option IncidentStatus)
  created_at : Option (Option Timestamp)
  resolved_at : Option (Option Timestamp)
  impact : Option (Option IncidentImpact)
  urgency : Option (Option IncidentUrgency)
  owner : Option (Option String)
  asignee : Option (Option String)
  description : Option (Option String)
deriving DecidableEq, Repr

/-- `incidents::validate_required_fields`. -/
def IncidentUpdateset.validate_required_fields (u : IncidentUpdateset) : Bool :=
  validate_not_null u.title &&
  validate_not_null u.status &&
  validate_not_null u.created_at &&
  validate_not_null u.impact &&
  validate_not_null u.urgency &&
  validate_not_null u.description

/-- `IncidentUpdateset::validate`: field-level length checks plus the
schema-level required-field guard. -/
def IncidentUpdateset.validate (u : IncidentUpdateset) : Bool :=
  lenBetweenOptOpt 1 255 u.title &&
  lenBetweenOptOpt 0 1024 u.owner &&
  lenBetweenOptOpt 0 1024 u.asignee &&
  lenBetweenOptOpt 0 1024 u.description &&
  u.validate_required_fields

/-- The SET clause of `incidents::update`: `COALESCE($n, col)` for the
required columns (with `$n = field.unwrap_or(None)`) and
`CASE WHEN field.is_none() THEN col ELSE field.unwrap_or(None) END`
for the nullable columns. -/
def Incident.applyUpdate (r : Incident) (u : IncidentUpdateset) : Incident where
  id := r.id
  title := (u.title.getD none).getD r.title
  status := (u.status.getD none).getD r.status
  created_at := (u.created_at.getD none).getD r.created_at
  resolved_at := if u.resolved_at.isNone then r.resolved_at else u.resolved_at.getD none
  impact := (u.impact.getD none).getD r.impact
  urgency := (u.urgency.getD none).getD r.urgency
  owner := if u.owner.isNone then r.owner else u.owner.getD none
  asignee := if u.asignee.isNone then r.asignee else u.asignee.getD none
  description := (u.description.getD none).getD r.description

/-- `incidents::update`: validate, then a single UPDATE .. WHERE id .. RETURNING;
no matching row is `NoRecordFound`. The second component is the table after
the call. -/
def Incident.update (id : Uuid) (u : IncidentUpdateset) (db : List Incident) :
    Except DbErr Incident × List Incident :=
  if !u.validate then (.error .validation, db)
  else
    match db.find? (fun r => r.id == id) with
    | none => (.error .noRecordFound, db)
    | some r =>
        (.ok (r.applyUpdate u), db.map (fun s => if s.id == id then s.applyUpdate u else s))

/-- `incidents::create`: validate, then INSERT with
`status.unwrap_or(Open)` and `COALESCE(created_at, now())`; `genId` is the
database-generated id and `now` the database clock. -/
def Incident.create (cs : IncidentCreateset) (genId : Uuid) (now : Timestamp)
    (db : List Incident) : Except DbErr Incident × List Incident :=
  if !cs.validate then (.error .validation, db)
  else
    let r : Incident :=
      { id := genId
        title := cs.title
        status := cs.status.getD .open_
        created_at := cs.created_at.getD now
        resolved_at := cs.resolved_at
        impact := cs.impact
        urgency := cs.urgency
        owner := cs.owner
        asignee := cs.asignee
        description := cs.description }
    (.ok r, db ++ [r])

/-! ## Configuration items (`src/db/src/entities/configitems.rs`) -/

/-- `CIStatus`. -/
inductive CIStatus where
  | active
  | inactive
  | maintenance
  | testing
  | retired
deriving DecidableEq, Repr

/-- The `ConfigItem` record (`r#type` is spelled `type`). -/
structure ConfigItem where
  id : Uuid
  name : String
  status : CIStatus
  created_at : Timestamp
  type : Option String
  owner : Option String
  description : String
deriving DecidableEq, Repr

/-- `ConfigItemCreateset`. -/
structure ConfigItemCreateset where
  name : String
  status : Option CIStatus
  created_at : Option Timestamp
  type : Option String
  owner : Option String
  description : String
deriving DecidableEq, Repr

/-- Field-level validations of `ConfigItemCreateset`. -/
def ConfigItemCreateset.validate (c : ConfigItemCreateset) : Bool :=
  lenBetween 1 255 c.name &&
  lenBetweenOpt 0 1024 c.type &&
  lenBetweenOpt 0 1024 c.owner &&
  lenBetween 0 1024 c.description

/-- `ConfigItemUpdateset`: every field uses the double-option encoding. -/
structure ConfigItemUpdateset where
  name : Option (Option String)
  status : Option (Option CIStatus)
  created_at : Option (Option Timestamp)
  type : Option (Option String)
  owner : Option (Option String)
  description : Option (Option String)
deriving DecidableEq, Repr

/-- `configitems::validate_required_fields`. -/
def ConfigItemUpdateset.validate_required_fields (u : ConfigItemUpdateset) : Bool :=
  validate_not_null u.name &&
  validate_not_null u.status &&
  validate_not_null u.created_at &&
  validate_not_null u.description

/-- `ConfigItemUpdateset::validate`. -/
def ConfigItemUpdateset.validate (u : ConfigItemUpdateset) : Bool :=
  lenBetweenOptOpt 1 255 u.name &&
  lenBetweenOptOpt 0 1024 u.type &&
  lenBetweenOptOpt 0 1024 u.owner &&
  lenBetweenOptOpt 0 1024 u.description &&
  u.validate_required_fields

/-- The SET clause of `configitems::update`. -/
def ConfigItem.applyUpdate (r : ConfigItem) (u : ConfigItemUpdateset) : ConfigItem where
  id := r.id
  name := (u.name.getD none).getD r.name
  status := (u.status.getD none).getD r.status
  created_at := (u.created_at.getD none).getD r.created_at
  type := if u.type.isNone then r.type else u.type.getD none
  owner := if u.owner.isNone then r.owner else u.owner.getD none
  description := (u.description.getD none).getD r.description

/-- `configitems::update`. -/
def ConfigItem.update (id : Uuid) (u : ConfigItemUpdateset) (db : List ConfigItem) :
    Except DbErr ConfigItem × List ConfigItem :=
  if !u.validate then (.error .validation, db)
  else
    match db.find? (fun r => r.id == id) with
    | none => (.error .noRecordFound, db)
    | some r =>
        (.ok (r.applyUpdate u), db.map (fun s => if s.id == id then s.applyUpdate u else s))

/-- `configitems::create`: `status.unwrap_or(Inactive)`,
`COALESCE(created_at, now())`. -/
def ConfigItem.create (cs : ConfigItemCreateset) (genId : Uuid) (now : Timestamp)
    (db : List ConfigItem) : Except DbErr ConfigItem × List ConfigItem :=
  if !cs.validate then (.error .validation, db)
  else
    let r : ConfigItem :=
      { id := genId
        name := cs.name
        status := cs.status.getD .inactive
        created_at := cs.created_at.getD now
        type := cs.type
        owner := cs.owner
        description := cs.description }
    (.ok r, db ++ [r])

/-! ## Problems (`src/db/src/entities/problems.rs`) -/

/-- `ProblemStatus`. -/
inductive ProblemStatus where
  | open_
  | knownError
  | resolved
  | closed
deriving DecidableEq, Repr

/-- The `Problem` record. -/
structure Problem where
  id : Uuid
  title : String
  status : ProblemStatus
  detection_timedate : Timestamp
  description : String
  causes : String
  workarounds : Option String
  resolutions : Option String
deriving DecidableEq, Repr

/-- `ProblemCreateset`. -/
structure ProblemCreateset where
  title : String
  status : Option ProblemStatus
  detection_timedate : Option Timestamp
  description : String
  causes : String
  workarounds : Option String
  resolutions : Option String
deriving DecidableEq, Repr

/-- Field-level validations of `ProblemCreateset`. -/
def ProblemCreateset.validate (c : ProblemCreateset) : Bool :=
  lenBetween 1 255 c.title &&
  lenBetween 0 1024 c.description &&
  lenBetween 0 1024 c.causes &&
  lenBetweenOpt 0 1024 c.workarounds &&
  lenBetweenOpt 0 1024 c.resolutions

/-- `ProblemUpdateset`: the required fields are plain `Option`s (a JSON
null and an absent key both deserialize to `None`); only `workarounds`
and `resolutions` use `PatchField`. There is no schema-level
required-field guard on this struct. -/
structure ProblemUpdateset where
  title : Option String
  status : Option ProblemStatus
  detection_timedate : Option Timestamp
  description : Option String
  causes : Option String
  workarounds : PatchField String
  resolutions : PatchField String
deriving DecidableEq, Repr

/-- `ProblemUpdateset::validate`: field-level length checks only. -/
def ProblemUpdateset.validate (u : ProblemUpdateset) : Bool :=
  lenBetweenOpt 1 255 u.title &&
  lenBetweenOpt 0 1024 u.description &&
  lenBetweenOpt 0 1024 u.causes &&
  lenBetweenPatch 0 1024 u.workarounds &&
  lenBetweenPatch 0 1024 u.resolutions

/-- The SET clause of `problems::update`: `COALESCE($n, col)` for the
plain-option columns and
`CASE WHEN field.leave_unchanged() THEN col ELSE field.into() END`
for the `PatchField` columns. -/
def Problem.applyUpdate (r : Problem) (u : ProblemUpdateset) : Problem where
  id := r.id
  title := u.title.getD r.title
  status := u.status.getD r.status
  detection_timedate := u.detection_timedate.getD r.detection_timedate
  description := u.description.getD r.description
  causes := u.causes.getD r.causes
  workarounds := if u.workarounds.leave_unchanged then r.workarounds else u.workarounds.intoOption
  resolutions := if u.resolutions.leave_unchanged then r.resolutions else u.resolutions.intoOption

/-- `problems::update`. -/
def Problem.update (id : Uuid) (u : ProblemUpdateset) (db : List Problem) :
    Except DbErr Problem × List Problem :=
  if !u.validate then (.error .validation, db)
  else
    match db.find? (fun r => r.id == id) with
    | none => (.error .noRecordFound, db)
    | some r =>
        (.ok (r.applyUpdate u), db.map (fun s => if s.id == id then s.applyUpdate u else s))

/-- `problems::create`: `status.unwrap_or(Open)`,
`COALESCE(detection_timedate, now())`. -/
def Problem.create (cs : ProblemCreateset) (genId : Uuid) (now : Timestamp)
    (db : List Problem) : Except DbErr Problem × List Problem :=
  if !cs.validate then (.error .validation, db)
  else
    let r : Problem :=
      { id := genId
        title := cs.title
        status := cs.status.getD .open_
        detection_timedate := cs.detection_timedate.getD now
        description := cs.description
        causes := cs.causes
        workarounds := cs.workarounds
        resolutions := cs.resolutions }
    (.ok r, db ++ [r])

/-! ## RFCs (`src/db/src/entities/changes.rs`) -/

/-- `RFCStatus`. -/
inductive RFCStatus where
  | open_
  | inProgress
  | closed
deriving DecidableEq, Repr

/-- The `RFC` record. -/
structure RFC where
  id : Uuid
  title : String
  status : RFCStatus
  created_at : Timestamp
  finished_at : Option Timestamp
  requester : String
  description : String
deriving DecidableEq, Repr

/-- `RFCCreateset`. -/
structure RFCCreateset where
  title : String
  status : Option RFCStatus
  created_at : Option Timestamp
  finished_at : Option Timestamp
  requester : String
  description : String
deriving DecidableEq, Repr

/-- Field-level validations of `RFCCreateset`. -/
def RFCCreateset.validate (c : RFCCreateset) : Bool :=
  lenBetween 1 255 c.title &&
  lenBetween 0 1024 c.requester &&
  lenBetween 0 1024 c.description

/-- `RFCUpdateset`: every field uses the double-option encoding. -/
structure RFCUpdateset where
  title : Option (Option String)
  status : Option (Option RFCStatus)
  created_at : Option (Option Timestamp)
  finished_at : Option (Option Timestamp)
  requester : Option (Option String)
  description : Option (Option String)
deriving DecidableEq, Repr

/-- `changes::validate_required_fields`. -/
def RFCUpdateset.validate_required_fields (u : RFCUpdateset) : Bool :=
  validate_not_null u.title &&
  validate_not_null u.status &&
  validate_not_null u.created_at &&
  validate_not_null u.requester &&
  validate_not_null u.description

/-- `RFCUpdateset::validate`. -/
def RFCUpdateset.validate (u : RFCUpdateset) : Bool :=
  lenBetweenOptOpt 1 255 u.title &&
  lenBetweenOptOpt 0 1024 u.requester &&
  lenBetweenOptOpt 0 1024 u.description &&
  u.validate_required_fields

/-- The SET clause of `changes::update`. -/
def RFC.applyUpdate (r : RFC) (u : RFCUpdateset) : RFC where
  id := r.id
  title := (u.title.getD none).getD r.title
  status := (u.status.getD none).getD r.status
  created_at := (u.created_at.getD none).getD r.created_at
  finished_at := if u.finished_at.isNone then r.finished_at else u.finished_at.getD none
  requester := (u.requester.getD none).getD r.requester
  description := (u.description.getD none).getD r.description

/-- `changes::update`. -/
def RFC.update (id : Uuid) (u : RFCUpdateset) (db : List RFC) :
    Except DbErr RFC × List RFC :=
  if !u.validate then (.error .validation, db)
  else
    match db.find? (fun r => r.id == id) with
    | none => (.error .noRecordFound, db)
    | some r =>
        (.ok (r.applyUpdate u), db.map (fun s => if s.id == id then s.applyUpdate u else s))

/-- `changes::create`: `status.unwrap_or(Open)`,
`COALESCE(created_at, now())`. -/
def RFC.create (cs : RFCCreateset) (genId : Uuid) (now : Timestamp)
    (db : List RFC) : Except DbErr RFC × List RFC :=
  if !cs.validate then (.error .validation, db)
  else
    let r : RFC :=
      { id := genId
        title := cs.title
        status := cs.status.getD .open_
        created_at := cs.created_at.getD now
        finished_at := cs.finished_at
        requester := cs.requester
        description := cs.description }
    (.ok r, db ++ [r])

/-! ## CI change records (`src/db/src/entities/configuration/changes.rs`)

These operations run inside an explicit transaction on the pool. A
rolled-back transaction leaves the committed state unchanged; the second
component of each result is the committed state after the call. -/

/-- The `CIChange` record. -/
structure CIChange where
  id : Uuid
  ci_id : Uuid
  implementation_timedate : Timestamp
  documentation : String
deriving DecidableEq, Repr

/-- `CIChangeCreateset`. -/
structure CIChangeCreateset where
  implementation_timedate : Timestamp
  documentation : String
deriving DecidableEq, Repr

/-- Field-level validations of `CIChangeCreateset`. -/
def CIChangeCreateset.validate (c : CIChangeCreateset) : Bool :=
  lenBetween 0 1024 c.documentation

/-- Committed state seen by the CI-change operations: the set of existing
configuration-item ids and the `ci_changes` table. -/
structure CIChangeDb where
  configitems : List Uuid
  ci_changes : List CIChange
deriving DecidableEq, Repr

/-- `configuration::changes::check_valid_ci`:
`SELECT EXISTS(SELECT 1 FROM configitems WHERE id = $1)`. -/
def check_valid_ci (id : Uuid) (st : CIChangeDb) : Bool :=
  st.configitems.contains id

/-- `configuration::changes::load`: fetch by `id` and `ci_id`. -/
def CIChange.load (id ci_id : Uuid) (st : CIChangeDb) : Except DbErr CIChange :=
  match st.ci_changes.find? (fun c => c.id == id && c.ci_id == ci_id) with
  | some c => .ok c
  | none => .error .noRecordFound

/-- `configuration::changes::create`: validate, begin a transaction,
check the configuration item exists, INSERT .. RETURNING inside the
transaction, then return `Ok` WITHOUT calling `tx.commit()`. Dropping
the sqlx transaction rolls it back, so on every path — the success path
included — the committed state is the one from before the call. -/
def CIChange.create (ci_id : Uuid) (cs : CIChangeCreateset) (genId : Uuid)
    (st : CIChangeDb) : Except DbErr CIChange × CIChangeDb :=
  if !cs.validate then (.error .validation, st)
  else if !check_valid_ci ci_id st then (.error .noRecordFound, st)
  else
    let c : CIChange :=
      { id := genId
        ci_id := ci_id
        implementation_timedate := cs.implementation_timedate
        documentation := cs.documentation }
    (.ok c, st)

/-! ## Incident ↔ ConfigItem relations
(`src/db/src/entities/incidents/ci_relations.rs`)

The relation table declares foreign keys to both endpoint tables in the
database schema (migrations are not under `src/`); per the spec, an
INSERT whose child reference does not exist raises a foreign-key
violation, which `create` maps to `ConstraintError`. -/

/-- The `IncidentCIRelation` record. -/
structure IncidentCIRelation where
  incident_id : Uuid
  ci_id : Uuid
  description : String
deriving DecidableEq, Repr

/-- Committed state seen by the incident-CI relation operations. -/
structure IncidentCIRelDb where
  incidents : List Uuid
  configitems : List Uuid
  relations : List IncidentCIRelation
deriving DecidableEq, Repr

/-- `ci_relations::create`: begin a transaction, `check_valid_incident`
(`NoRecordFound` if the incident is missing, transaction rolled back),
INSERT `(incident_id, ci_id, "")` (a foreign-key violation on `ci_id`
becomes `ConstraintError`, transaction rolled back), commit, and return
a record built in Rust with an empty description. -/
def IncidentCIRelation.create (incident_id ci_id : Uuid) (st : IncidentCIRelDb) :
    Except DbErr IncidentCIRelation × IncidentCIRelDb :=
  if !st.incidents.contains incident_id then (.error .noRecordFound, st)
  else if !st.configitems.contains ci_id then (.error .constraint, st)
  else
    (.ok { incident_id := incident_id, ci_id := ci_id, description := "" },
     { st with relations := st.relations ++ [{ incident_id := incident_id, ci_id := ci_id, description := "" }] })

/-! ## Problem ↔ Incident relations
(`src/db/src/entities/problems/incident_relations.rs`) -/

/-- The `ProblemIncidentRelation` record. -/
structure ProblemIncidentRelation where
  problem_id : Uuid
  incident_id : Uuid
  description : String
deriving DecidableEq, Repr

/-- Committed state seen by the problem-incident relation operations. -/
structure ProblemIncidentRelDb where
  problems : List Uuid
  incidents : List Uuid
  relations : List ProblemIncidentRelation
deriving DecidableEq, Repr

/-- `problems::incident_relations::create`: same shape as
`ci_relations::create` with `check_valid_problem` as the parent check
and `incident_id` as the child reference. -/
def ProblemIncidentRelation.create (problem_id incident_id : Uuid)
    (st : ProblemIncidentRelDb) :
    Except DbErr ProblemIncidentRelation × ProblemIncidentRelDb :=
  if !st.problems.contains problem_id then (.error .noRecordFound, st)
  else if !st.incidents.contains incident_id then (.error .constraint, st)
  else
    (.ok { problem_id := problem_id, incident_id := incident_id, description := "" },
     { st with relations := st.relations ++ [{ problem_id := problem_id, incident_id := incident_id, description := "" }] })

/-! ## RFC ↔ Problem relations
(`src/db/src/entities/changes/problem_relations.rs`) -/

/-- The `RFCProblemRelation` record (this relation kind carries a
synthetic id and no description). -/
structure RFCProblemRelation where
  id : Uuid
  rfc_id : Uuid
  problem_id : Uuid
deriving DecidableEq, Repr

/-- Committed state seen by the RFC-problem relation operations. -/
structure RFCProblemRelDb where
  rfcs : List Uuid
  problems : List Uuid
  relations : List RFCProblemRelation
deriving DecidableEq, Repr

/-- `changes::problem_relations::create`: validate the createset, begin a
transaction, `check_valid_rfc` (`NoRecordFound` if the RFC is missing),
INSERT .. RETURNING (a foreign-key violation on `problem_id` becomes
`ConstraintError`), commit. `genId` is the database-generated relation id. -/
def RFCProblemRelation.create (rfc_id problem_id : Uuid) (genId : Uuid)
    (st : RFCProblemRelDb) :
    Except DbErr RFCProblemRelation × RFCProblemRelDb :=
  if !st.rfcs.contains rfc_id then (.error .noRecordFound, st)
  else if !st.problems.contains problem_id then (.error .constraint, st)
  else
    (.ok { id := genId, rfc_id := rfc_id, problem_id := problem_id },
     { st with relations := st.relations ++ [{ id := genId, rfc_id := rfc_id, problem_id := problem_id }] })

/-- Modelled from the spec: the RFC ↔ Incident relation module
(`entities::changes::incident_relations`, whose db-crate source is not
under `src/`, only its HTTP controller is). Per the spec's uniform
relation contract it mirrors `changes::problem_relations::create`:
parent-existence check first (`NoRecordFound`), then an insert whose
foreign-key violation on the child reference maps to `ConstraintError`. -/
structure RFCIncidentRelation where
  id : Uuid
  rfc_id : Uuid
  incident_id : Uuid
deriving DecidableEq, Repr

/-- Committed state seen by the RFC-incident relation operations. -/
structure RFCIncidentRelDb where
  rfcs : List Uuid
  incidents : List Uuid
  relations : List RFCIncidentRelation
deriving DecidableEq, Repr

/-- Modelled from the spec: `changes::incident_relations::create`
(see `RFCIncidentRelation`). -/
def RFCIncidentRelation.create (rfc_id incident_id : Uuid) (genId : Uuid)
    (st : RFCIncidentRelDb) :
    Except DbErr RFCIncidentRelation × RFCIncidentRelDb :=
  if !st.rfcs.contains rfc_id then (.error .noRecordFound, st)
  else if !st.incidents.contains incident_id then (.error .constraint, st)
  else
    (.ok { id := genId, rfc_id := rfc_id, incident_id := incident_id },
     { st with relations := st.relations ++ [{ id := genId, rfc_id := rfc_id, incident_id := incident_id }] })

/-! ## JSON model for the updateset wire format

`Json` models the serde data model as used by the updatesets; timestamps
are carried as numbers (the concrete chrono text encoding is irrelevant
to the tri-state field semantics). Objects are association lists keyed
by field name. -/

/-- JSON values. -/
inductive Json where
  | null
  | str (s : String)
  | num (n : Nat)
  | obj (fields : List (String × Json))

/-- Decoder for a JSON string. -/
def decStr : Json → Option String
  | .str s => some s
  | _ => none

/-- Decoder for a JSON number (timestamps). -/
def decNum : Json → Option Nat
  | .num n => some n
  | _ => none

/-- `CIStatus` serde encoding (`rename_all = "lowercase"`). -/
def CIStatus.toJson : CIStatus → Json
  | .active => .str "active"
  | .inactive => .str "inactive"
  | .maintenance => .str "maintenance"
  | .testing => .str "testing"
  | .retired => .str "retired"

/-- `CIStatus` serde decoding. -/
def CIStatus.fromJson : Json → Option CIStatus
  | .str "active" => some .active
  | .str "inactive" => some .inactive
  | .str "maintenance" => some .maintenance
  | .str "testing" => some .testing
  | .str "retired" => some .retired
  | _ => none

/-- `ProblemStatus` serde encoding (`rename_all = "lowercase"`). -/
def ProblemStatus.toJson : ProblemStatus → Json
  | .open_ => .str "open"
  | .knownError => .str "knownerror"
  | .resolved => .str "resolved"
  | .closed => .str "closed"

/-- `ProblemStatus` serde decoding. -/
def ProblemStatus.fromJson : Json → Option ProblemStatus
  | .str "open" => some .open_
  | .str "knownerror" => some .knownError
  | .str "resolved" => some .resolved
  | .str "closed" => some .closed
  | _ => none

/-- Serialization of one double-option field
(`serde_with::rust::double_option` with
`skip_serializing_if = "Option::is_none"`): outer `None` is omitted,
`Some(None)` is emitted as null, `Some(Some(v))` as the value. -/
def encodeDoubleOptField (enc : T → Json) (key : String) :
    Option (Option T) → List (String × Json)
  | none => []
  | some none => [(key, .null)]
  | some (some v) => [(key, enc v)]

/-- Deserialization of one double-option field (`serde(default)` with
`double_option`): absent key gives outer `None`, a null gives
`Some(None)`, a value gives `Some(Some(v))`. -/
def decodeDoubleOptField (dec : Json → Option T)
    (fields : List (String × Json)) (key : String) : Option (Option (Option T)) :=
  match fields.lookup key with
  | none => some none
  | some .null => some (some none)
  | some v => (dec v).map (fun t => some (some t))

/-- Serialization of one `PatchField` field (`serde(untagged)` with
`skip_serializing_if = "PatchField::leave_unchanged"`): `Missing` is
omitted, `Null` is emitted as null, `Value(v)` as the value. -/
def encodePatchField (enc : T → Json) (key : String) :
    PatchField T → List (String × Json)
  | .missing => []
  | .null => [(key, .null)]
  | .value v => [(key, enc v)]

/-- Deserialization of one `PatchField` field
(`Option::deserialize(..).map(Into::into)` with `serde(default)`):
absent key gives `Missing`, a null gives `Null`, a value gives
`Value(v)`. -/
def decodePatchField (dec : Json → Option T)
    (fields : List (String × Json)) (key : String) : Option (PatchField T) :=
  match fields.lookup key with
  | none => some .missing
  | some .null => some .null
  | some v => (dec v).map .value

/-- Serialization of one plain `Option` field with NO skip attribute
(the required fields of `ProblemUpdateset`): `None` is emitted as an
explicit null, never omitted. -/
def encodeOptField (enc : T → Json) (key : String) :
    Option T → List (String × Json)
  | none => [(key, .null)]
  | some v => [(key, enc v)]

/-- Deserialization of one plain `Option` field: both an absent key and
a null give `None` — the two states collapse. -/
def decodeOptField (dec : Json → Option T)
    (fields : List (String × Json)) (key : String) : Option (Option T) :=
  match fields.lookup key with
  | none => some none
  | some .null => some none
  | some v => (dec v).map some

/-- Serialization of `ConfigItemUpdateset` (fields in declaration
order, `Missing` fields omitted). -/
def ConfigItemUpdateset.toJson (u : ConfigItemUpdateset) : Json :=
  .obj (encodeDoubleOptField Json.str "name" u.name ++
    encodeDoubleOptField CIStatus.toJson "status" u.status ++
    encodeDoubleOptField Json.num "created_at" u.created_at ++
    encodeDoubleOptField Json.str "type" u.type ++
    encodeDoubleOptField Json.str "owner" u.owner ++
    encodeDoubleOptField Json.str "description" u.description)

/-- Deserialization of `ConfigItemUpdateset`. -/
def ConfigItemUpdateset.fromJson : Json → Option ConfigItemUpdateset
  | .obj fields => do
      let name ← decodeDoubleOptField decStr fields "name"
      let status ← decodeDoubleOptField CIStatus.fromJson fields "status"
      let created_at ← decodeDoubleOptField decNum fields "created_at"
      let type ← decodeDoubleOptField decStr fields "type"
      let owner ← decodeDoubleOptField decStr fields "owner"
      let description ← decodeDoubleOptField decStr fields "description"
      pure ⟨name, status, created_at, type, owner, description⟩
  | _ => none

/-- Serialization of `ProblemUpdateset`: the five plain-option fields
have no skip attribute and serialize `None` as an explicit null; only
the two `PatchField` fields are omitted when `Missing`. -/
def ProblemUpdateset.toJson (u : ProblemUpdateset) : Json :=
  .obj (encodeOptField Json.str "title" u.title ++
    encodeOptField ProblemStatus.toJson "status" u.status ++
    encodeOptField Json.num "detection_timedate" u.detection_timedate ++
    encodeOptField Json.str "description" u.description ++
    encodeOptField Json.str "causes" u.causes ++
    encodePatchField Json.str "workarounds" u.workarounds ++
    encodePatchField Json.str "resolutions" u.resolutions)

/-- Deserialization of `ProblemUpdateset`. -/
def ProblemUpdateset.fromJson : Json → Option ProblemUpdateset
  | .obj fields => do
      let title ← decodeOptField decStr fields "title"
      let status ← decodeOptField ProblemStatus.fromJson fields "status"
      let detection_timedate ← decodeOptField decNum fields "detection_timedate"
      let description ← decodeOptField decStr fields "description"
      let causes ← decodeOptField decStr fields "causes"
      let workarounds ← decodePatchField decStr fields "workarounds"
      let resolutions ← decodePatchField decStr fields "resolutions"
      pure ⟨title, status, detection_timedate, description, causes, workarounds, resolutions⟩
  | _ => none

/-- The all-`Missing` `ConfigItemUpdateset` (every double-option field
has outer `None`). -/
def ConfigItemUpdateset.allMissing : ConfigItemUpdateset :=
  ⟨none, none, none, none, none, none⟩

/-- The all-`Missing` `IncidentUpdateset`. -/
def IncidentUpdateset.allMissing : IncidentUpdateset :=
  ⟨none, none, none, none, none, none, none, none, none⟩

/-- The all-`Missing` `RFCUpdateset`. -/
def RFCUpdateset.allMissing : RFCUpdateset :=
  ⟨none, none, none, none, none, none⟩

/-- The all-`Missing` `ProblemUpdateset` (plain-option fields `None`,
patch fields `Missing`). -/
def ProblemUpdateset.allMissing : ProblemUpdateset :=
  ⟨none, none, none, none, none, .missing, .missing⟩

/-- `IncidentStatus` serde encoding (`rename_all = "lowercase"`). -/
def IncidentStatus.toJson : IncidentStatus → Json
  | .open_ => .str "open"
  | .inProgress => .str "inprogress"
  | .closed => .str "closed"

/-- `IncidentStatus` serde decoding. -/
def IncidentStatus.fromJson : Json → Option IncidentStatus
  | .str "open" => some .open_
  | .str "inprogress" => some .inProgress
  | .str "closed" => some .closed
  | _ => none

/-- `IncidentImpact` serde encoding. -/
def IncidentImpact.toJson : IncidentImpact → Json
  | .high => .str "high"
  | .medium => .str "medium"
  | .low => .str "low"

/-- `IncidentImpact` serde decoding. -/
def IncidentImpact.fromJson : Json → Option IncidentImpact
  | .str "high" => some .high
  | .str "medium" => some .medium
  | .str "low" => some .low
  | _ => none

/-- `IncidentUrgency` serde encoding. -/
def IncidentUrgency.toJson : IncidentUrgency → Json
  | .high => .str "high"
  | .medium => .str "medium"
  | .low => .str "low"

/-- `IncidentUrgency` serde decoding. -/
def IncidentUrgency.fromJson : Json → Option IncidentUrgency
  | .str "high" => some .high
  | .str "medium" => some .medium
  | .str "low" => some .low
  | _ => none

/-- `RFCStatus` serde encoding (`rename_all = "lowercase"`). -/
def RFCStatus.toJson : RFCStatus → Json
  | .open_ => .str "open"
  | .inProgress => .str "inprogress"
  | .closed => .str "closed"

/-- `RFCStatus` serde decoding. -/
def RFCStatus.fromJson : Json → Option RFCStatus
  | .str "open" => some .open_
  | .str "inprogress" => some .inProgress
  | .str "closed" => some .closed
  | _ => none

/-- Serialization of `IncidentUpdateset` (fields in declaration order,
`Missing` fields omitted). -/
def IncidentUpdateset.toJson (u : IncidentUpdateset) : Json :=
  .obj (encodeDoubleOptField Json.str "title" u.title ++
    encodeDoubleOptField IncidentStatus.toJson "status" u.status ++
    encodeDoubleOptField Json.num "created_at" u.created_at ++
    encodeDoubleOptField Json.num "resolved_at" u.resolved_at ++
    encodeDoubleOptField IncidentImpact.toJson "impact" u.impact ++
    encodeDoubleOptField IncidentUrgency.toJson "urgency" u.urgency ++
    encodeDoubleOptField Json.str "owner" u.owner ++
    encodeDoubleOptField Json.str "asignee" u.asignee ++
    encodeDoubleOptField Json.str "description" u.description)

/-- Deserialization of `IncidentUpdateset`. -/
def IncidentUpdateset.fromJson : Json → Option IncidentUpdateset
  | .obj fields => do
      let title ← decodeDoubleOptField decStr fields "title"
      let status ← decodeDoubleOptField IncidentStatus.fromJson fields "status"
      let created_at ← decodeDoubleOptField decNum fields "created_at"
      let resolved_at ← decodeDoubleOptField decNum fields "resolved_at"
      let impact ← decodeDoubleOptField IncidentImpact.fromJson fields "impact"
      let urgency ← decodeDoubleOptField IncidentUrgency.fromJson fields "urgency"
      let owner ← decodeDoubleOptField decStr fields "owner"
      let asignee ← decodeDoubleOptField decStr fields "asignee"
      let description ← decodeDoubleOptField decStr fields "description"
      pure ⟨title, status, created_at, resolved_at, impact, urgency, owner, asignee,
        description⟩
  | _ => none

/-- Serialization of `RFCUpdateset` (fields in declaration order,
`Missing` fields omitted). -/
def RFCUpdateset.toJson (u : RFCUpdateset) : Json :=
  .obj (encodeDoubleOptField Json.str "title" u.title ++
    encodeDoubleOptField RFCStatus.toJson "status" u.status ++
    encodeDoubleOptField Json.num "created_at" u.created_at ++
    encodeDoubleOptField Json.num "finished_at" u.finished_at ++
    encodeDoubleOptField Json.str "requester" u.requester ++
    encodeDoubleOptField Json.str "description" u.description)

/-- Deserialization of `RFCUpdateset`. -/
def RFCUpdateset.fromJson : Json → Option RFCUpdateset
  | .obj fields => do
      let title ← decodeDoubleOptField decStr fields "title"
      let status ← decodeDoubleOptField RFCStatus.fromJson fields "status"
      let created_at ← decodeDoubleOptField decNum fields "created_at"
      let finished_at ← decodeDoubleOptField decNum fields "finished_at"
      let requester ← decodeDoubleOptField decStr fields "requester"
      let description ← decodeDoubleOptField decStr fields "description"
      pure ⟨title, status, created_at, finished_at, requester, description⟩
  | _ => none

/-! ## Concrete fixtures used by witnesses and counterexamples -/

/-- A stored incident used as a concrete fixture. -/
def sampleIncident : Incident :=
  ⟨1, "Proxy Not Working", .open_, 5, none, .low, .low, none, none, "d"⟩

/-- A stored incident with populated optional fields. -/
def sampleIncident2 : Incident :=
  ⟨2, "Proxy Not Working", .open_, 5, some 9, .high, .medium, some "Sales", some "E1837", "d"⟩

/-- A stored configuration item used as a concrete fixture. -/
def sampleConfigItem : ConfigItem :=
  ⟨1, "IBM 5100", .active, 3, some "Workstation", some "IT", "desc"⟩

/-- A stored problem used as a concrete fixture. -/
def sampleProblem : Problem :=
  ⟨1, "Low Bandwidth", .open_, 0, "d", "c", some "w", some "r"⟩

/-- A stored RFC used as a concrete fixture. -/
def sampleRFC : RFC :=
  ⟨1, "OS Update", .open_, 3, none, "Sales", "desc"⟩

/-- An incident updateset that explicitly nulls the three nullable
optional columns and leaves everything else missing. -/
def incidentNullOptionals : IncidentUpdateset :=
  ⟨none, none, none, some none, none, none, some none, some none, none⟩

/-- A problem updateset that explicitly nulls the two patch fields. -/
def problemNullPatches : ProblemUpdateset :=
  ⟨none, none, none, none, none, .null, .null⟩

/-- An incident createset with the status omitted. -/
def incidentCsDefault : IncidentCreateset :=
  ⟨"t", none, none, none, .low, .low, none, none, ""⟩

/-- An incident createset with an explicit status. -/
def incidentCsClosed : IncidentCreateset :=
  ⟨"t", some .closed, none, none, .low, .low, none, none, ""⟩

/-- A configuration-item createset with the status omitted. -/
def configItemCsDefault : ConfigItemCreateset :=
  ⟨"n", none, none, none, none, ""⟩

/-- A CI-change createset passing validation. -/
def ciChangeCs : CIChangeCreateset :=
  ⟨5, "doc"⟩

/-- A config-item updateset exercising all three patch states. -/
def ciSample : ConfigItemUpdateset :=
  ⟨some (some "IBM 5100"), some none, none, some (some "Workstation"), none, some (some "d")⟩

/-- An incident updateset exercising all three patch states, with the
owner field missing. -/
def incidentUpdSample : IncidentUpdateset :=
  ⟨some (some "T"), some none, none, some (some 9), some (some .high), none, none,
    some none, some (some "d")⟩

/-- An RFC updateset exercising all three patch states, with the
finished_at field missing. -/
def rfcUpdSample : RFCUpdateset :=
  ⟨some (some "T"), some none, none, none, some (some "Sales"), some (some "d")⟩

/-! ## Helper lemmas -/

/-- Every entry emitted for a double-option field carries that field's key. -/
lemma mem_encodeDoubleOptField {T : Type} (enc : T → Json) (k : String)
    (v : Option (Option T)) (p : String × Json)
    (hp : p ∈ encodeDoubleOptField enc k v) : p.1 = k := by
  rcases v with _ | ⟨_ | t⟩ <;> simp [encodeDoubleOptField] at hp <;> simp [hp]

/-- A lookup misses a list whose keys all differ from the looked-up key. -/
lemma lookup_eq_none_of_keys_ne (k : String) (l : List (String × Json))
    (h : ∀ p ∈ l, (k == p.1) = false) : l.lookup k = none := by
  induction l with
  | nil => rfl
  | cons p rest ih =>
      obtain ⟨a, b⟩ := p
      have hk := h (a, b) (List.mem_cons_self _ _)
      simp only [List.lookup]
      rw [hk]
      exact ih fun q hq => h q (List.mem_cons_of_mem _ hq)

/-- A lookup that misses the first segment of an append continues in the
second segment. -/
lemma lookup_append (k : String) (l₁ l₂ : List (String × Json))
    (h : l₁.lookup k = none) : (l₁ ++ l₂).lookup k = l₂.lookup k := by
  induction l₁ with
  | nil => rfl
  | cons p rest ih =>
      obtain ⟨a, b⟩ := p
      simp only [List.lookup, List.cons_append] at *
      cases hk : (k == a) with
      | true => rw [hk] at h; simp at h
      | false => rw [hk] at h; exact ih h

/-- A key-distinct double-option segment contributes nothing to a lookup. -/
lemma lookup_encodeDouble_none {T : Type} (enc : T → Json) (k k' : String)
    (v : Option (Option T)) (h : (k' == k) = false) :
    (encodeDoubleOptField enc k v).lookup k' = none :=
  lookup_eq_none_of_keys_ne _ _ fun p hp => by
    rw [mem_encodeDoubleOptField enc k v p hp]; exact h

/-- Decoding a double-option field from its own encoding (followed by
entries that miss the key) recovers the original tri-state value. -/
lemma decodeDouble_hit {T : Type} (enc : T → Json) (dec : Json → Option T)
    (hinv : ∀ t, dec (enc t) = some t) (hnn : ∀ t, enc t ≠ Json.null)
    (k : String) (v : Option (Option T)) (rest : List (String × Json))
    (hrest : rest.lookup k = none) :
    decodeDoubleOptField dec (encodeDoubleOptField enc k v ++ rest) k = some v := by
  rcases v with _ | ⟨_ | t⟩
  · simp only [encodeDoubleOptField, List.nil_append, decodeDoubleOptField, hrest]
  · simp [encodeDoubleOptField, decodeDoubleOptField, List.lookup]
  · simp only [encodeDoubleOptField, List.cons_append, List.nil_append,
      decodeDoubleOptField, List.lookup, beq_self_eq_true]
    rcases hj : enc t with _ | s | n | fs
    · exact absurd hj (hnn t)
    · show Option.map (fun x => some (some x)) (dec (Json.str s)) = some (some (some t))
      rw [← hj, hinv]; rfl
    · show Option.map (fun x => some (some x)) (dec (Json.num n)) = some (some (some t))
      rw [← hj, hinv]; rfl
    · show Option.map (fun x => some (some x)) (dec (Json.obj fs)) = some (some (some t))
      rw [← hj, hinv]; rfl

/-- Decoding skips a double-option segment encoded for a different key. -/
lemma decodeDouble_skip {T U : Type} (dec : Json → Option T) (enc' : U → Json)
    (k k' : String) (v : Option (Option U)) (rest : List (String × Json))
    (h : (k' == k) = false) :
    decodeDoubleOptField dec (encodeDoubleOptField enc' k v ++ rest) k' =
      decodeDoubleOptField dec rest k' := by
  unfold decodeDoubleOptField
  rw [lookup_append]
  exact lookup_eq_none_of_keys_ne _ _ fun p hp => by
    rw [mem_encodeDoubleOptField enc' k v p hp]; exact h

/-- `decStr` inverts `Json.str`. -/
lemma decStr_str : ∀ x : String, decStr (Json.str x) = some x := fun _ => rfl

/-- `decNum` inverts `Json.num`. -/
lemma decNum_num : ∀ x : Nat, decNum (Json.num x) = some x := fun _ => rfl

/-- `CIStatus.fromJson` inverts `CIStatus.toJson`. -/
lemma ciStatus_fromJson_toJson : ∀ x : CIStatus, CIStatus.fromJson (CIStatus.toJson x) = some x := by
  intro x; cases x <;> rfl

/-- No string encodes to the null value. -/
lemma Json.str_ne_null : ∀ x : String, Json.str x ≠ Json.null := fun _ h => by cases h

/-- No number encodes to the null value. -/
lemma Json.num_ne_null : ∀ x : Nat, Json.num x ≠ Json.null := fun _ h => by cases h

/-- No status encodes to the null value. -/
lemma ciStatus_toJson_ne_null : ∀ x : CIStatus, CIStatus.toJson x ≠ Json.null := by
  intro x; cases x <;> intro h <;> cases h

/-- A successful `ConfigItemUpdateset` deserialization decodes the
`name` field with the double-option field decoder. -/
lemma ConfigItemUpdateset.fromJson_obj_name (fields : List (String × Json))
    (u : ConfigItemUpdateset) (h : ConfigItemUpdateset.fromJson (.obj fields) = some u) :
    decodeDoubleOptField decStr fields "name" = some u.name := by
  simp only [ConfigItemUpdateset.fromJson, Option.pure_def, Option.bind_eq_bind,
    Option.bind_eq_some] at h
  obtain ⟨a, ha, b, hb, c, hc, d, hd, e, he, f, hf, hu⟩ := h
  cases hu
  exact ha

/-- A successful `ProblemUpdateset` deserialization decodes the
`workarounds` field with the `PatchField` decoder. -/
lemma ProblemUpdateset.fromJson_obj_workarounds (fields : List (String × Json))
    (u : ProblemUpdateset) (h : ProblemUpdateset.fromJson (.obj fields) = some u) :
    decodePatchField decStr fields "workarounds" = some u.workarounds := by
  simp only [ProblemUpdateset.fromJson, Option.pure_def, Option.bind_eq_bind,
    Option.bind_eq_some] at h
  obtain ⟨a, ha, b, hb, c, hc, d, hd, e, he, f, hf, g, hg, hu⟩ := h
  cases hu
  exact hf

/-- `IncidentStatus.fromJson` inverts `IncidentStatus.toJson`. -/
lemma incidentStatus_fromJson_toJson :
    ∀ x : IncidentStatus, IncidentStatus.fromJson (IncidentStatus.toJson x) = some x := by
  intro x; cases x <;> rfl

/-- No incident status encodes to the null value. -/
lemma incidentStatus_toJson_ne_null :
    ∀ x : IncidentStatus, IncidentStatus.toJson x ≠ Json.null := by
  intro x; cases x <;> intro h <;> cases h

/-- `IncidentImpact.fromJson` inverts `IncidentImpact.toJson`. -/
lemma incidentImpact_fromJson_toJson :
    ∀ x : IncidentImpact, IncidentImpact.fromJson (IncidentImpact.toJson x) = some x := by
  intro x; cases x <;> rfl

/-- No impact encodes to the null value. -/
lemma incidentImpact_toJson_ne_null :
    ∀ x : IncidentImpact, IncidentImpact.toJson x ≠ Json.null := by
  intro x; cases x <;> intro h <;> cases h

/-- `IncidentUrgency.fromJson` inverts `IncidentUrgency.toJson`. -/
lemma incidentUrgency_fromJson_toJson :
    ∀ x : IncidentUrgency, IncidentUrgency.fromJson (IncidentUrgency.toJson x) = some x := by
  intro x; cases x <;> rfl

/-- No urgency encodes to the null value. -/
lemma incidentUrgency_toJson_ne_null :
    ∀ x : IncidentUrgency, IncidentUrgency.toJson x ≠ Json.null := by
  intro x; cases x <;> intro h <;> cases h

/-- `RFCStatus.fromJson` inverts `RFCStatus.toJson`. -/
lemma rfcStatus_fromJson_toJson :
    ∀ x : RFCStatus, RFCStatus.fromJson (RFCStatus.toJson x) = some x := by
  intro x; cases x <;> rfl

/-- No RFC status encodes to the null value. -/
lemma rfcStatus_toJson_ne_null :
    ∀ x : RFCStatus, RFCStatus.toJson x ≠ Json.null := by
  intro x; cases x <;> intro h <;> cases h

/-- A successful `IncidentUpdateset` deserialization decodes the
`title` field with the double-option field decoder. -/
lemma incidentUpd_fromJson_obj_title (fields : List (String × Json))
    (u : IncidentUpdateset) (h : IncidentUpdateset.fromJson (.obj fields) = some u) :
    decodeDoubleOptField decStr fields "title" = some u.title := by
  simp only [IncidentUpdateset.fromJson, Option.pure_def, Option.bind_eq_bind,
    Option.bind_eq_some] at h
  obtain ⟨a, ha, b, hb, c, hc, d, hd, e, he, f, hf, g, hg, i, hi, j, hj, hu⟩ := h
  cases hu
  exact ha

/-- A successful `RFCUpdateset` deserialization decodes the `title`
field with the double-option field decoder. -/
lemma rfcUpd_fromJson_obj_title (fields : List (String × Json))
    (u : RFCUpdateset) (h : RFCUpdateset.fromJson (.obj fields) = some u) :
    decodeDoubleOptField decStr fields "title" = some u.title := by
  simp only [RFCUpdateset.fromJson, Option.pure_def, Option.bind_eq_bind,
    Option.bind_eq_some] at h
  obtain ⟨a, ha, b, hb, c, hc, d, hd, e, he, f, hf, hu⟩ := h
  cases hu
  exact ha

/-- A successful `ProblemUpdateset` deserialization decodes the `title`
field with the plain-option field decoder. -/
lemma problemUpd_fromJson_obj_title (fields : List (String × Json))
    (u : ProblemUpdateset) (h : ProblemUpdateset.fromJson (.obj fields) = some u) :
    decodeOptField decStr fields "title" = some u.title := by
  simp only [ProblemUpdateset.fromJson, Option.pure_def, Option.bind_eq_bind,
    Option.bind_eq_some] at h
  obtain ⟨a, ha, b, hb, c, hc, d, hd, e, he, f, hf, g, hg, hu⟩ := h
  cases hu
  exact ha

/-! ## Claim theorems -/

/-- Claim C5: `priority(impact, urgency)` is total on the two three-valued
enums and determined by the product of the weights (High=3, Medium=2,
Low=1): product 1 or 2 gives Low, 3 or 4 gives Moderate, 6 gives High,
9 gives Critical; in particular priority(High, High) = Critical,
priority(Low, Low) = Low, priority(High, Medium) = priority(Medium, High)
= High, and priority(Medium, Medium) = Moderate. -/
theorem incident_priority_table :
    (∀ (i : IncidentImpact) (u : IncidentUrgency),
        (IncidentPrio.fromImpactUrgency i u).isSome) ∧
    (∀ (i : IncidentImpact) (u : IncidentUrgency),
        i.weight * u.weight = 1 ∨ i.weight * u.weight = 2 →
        IncidentPrio.fromImpactUrgency i u = some .low) ∧
    (∀ (i : IncidentImpact) (u : IncidentUrgency),
        i.weight * u.weight = 3 ∨ i.weight * u.weight = 4 →
        IncidentPrio.fromImpactUrgency i u = some .moderate) ∧
    (∀ (i : IncidentImpact) (u : IncidentUrgency),
        i.weight * u.weight = 6 →
        IncidentPrio.fromImpactUrgency i u = some .high) ∧
    (∀ (i : IncidentImpact) (u : IncidentUrgency),
        i.weight * u.weight = 9 →
        IncidentPrio.fromImpactUrgency i u = some .critical) ∧
    IncidentPrio.fromImpactUrgency .high .high = some .critical ∧
    IncidentPrio.fromImpactUrgency .low .low = some .low ∧
    IncidentPrio.fromImpactUrgency .high .medium = some .high ∧
    IncidentPrio.fromImpactUrgency .medium .high = some .high ∧
    IncidentPrio.fromImpactUrgency .medium .medium = some .moderate :=
  ⟨fun i u => by cases i <;> cases u <;> decide,
   fun i u => by cases i <;> cases u <;> decide,
   fun i u => by cases i <;> cases u <;> decide,
   fun i u => by cases i <;> cases u <;> decide,
   fun i u => by cases i <;> cases u <;> decide,
   by decide, by decide, by decide, by decide, by decide⟩

/-- Witness for C5: at Low/Low the product is 1 and the computed priority
is Low. -/
theorem incident_priority_table_witness :
    IncidentPrio.fromImpactUrgency .low .low = some .low :=
  incident_priority_table.2.1 .low .low (Or.inl rfl)

/-- Claim C9: every weight product is one of 1, 2, 3, 4, 6, 9, so the
aborting arm of the priority lookup is unreachable and the computation
succeeds for all well-typed inputs. -/
theorem priority_products_reachable :
    ∀ (i : IncidentImpact) (u : IncidentUrgency),
      (i.weight * u.weight = 1 ∨ i.weight * u.weight = 2 ∨ i.weight * u.weight = 3 ∨
       i.weight * u.weight = 4 ∨ i.weight * u.weight = 6 ∨ i.weight * u.weight = 9) ∧
      (IncidentPrio.fromImpactUrgency i u).isSome := by
  intro i u; cases i <;> cases u <;> decide

/-- Claim C3: for each entity, updating an existing record with the
all-`Missing` updateset succeeds, returns the stored record, and leaves
the table unchanged. -/
theorem update_all_missing_is_identity :
    (∀ id db (r : Incident), db.find? (fun s => s.id == id) = some r →
        Incident.update id .allMissing db = (.ok r, db)) ∧
    (∀ id db (r : ConfigItem), db.find? (fun s => s.id == id) = some r →
        ConfigItem.update id .allMissing db = (.ok r, db)) ∧
    (∀ id db (r : Problem), db.find? (fun s => s.id == id) = some r →
        Problem.update id .allMissing db = (.ok r, db)) ∧
    (∀ id db (r : RFC), db.find? (fun s => s.id == id) = some r →
        RFC.update id .allMissing db = (.ok r, db)) := by
  refine ⟨?_, ?_, ?_, ?_⟩
  · intro id db r h
    have key : ∀ s : Incident, s.applyUpdate IncidentUpdateset.allMissing = s := fun _ => rfl
    unfold Incident.update
    rw [show (!IncidentUpdateset.allMissing.validate) = false from rfl]
    simp only [Bool.false_eq_true, if_false, h, key]
    simp [key]
  · intro id db r h
    have key : ∀ s : ConfigItem, s.applyUpdate ConfigItemUpdateset.allMissing = s := fun _ => rfl
    unfold ConfigItem.update
    rw [show (!ConfigItemUpdateset.allMissing.validate) = false from rfl]
    simp only [Bool.false_eq_true, if_false, h, key]
    simp [key]
  · intro id db r h
    have key : ∀ s : Problem, s.applyUpdate ProblemUpdateset.allMissing = s := fun _ => rfl
    unfold Problem.update
    rw [show (!ProblemUpdateset.allMissing.validate) = false from rfl]
    simp only [Bool.false_eq_true, if_false, h, key]
    simp [key]
  · intro id db r h
    have key : ∀ s : RFC, s.applyUpdate RFCUpdateset.allMissing = s := fun _ => rfl
    unfold RFC.update
    rw [show (!RFCUpdateset.allMissing.validate) = false from rfl]
    simp only [Bool.false_eq_true, if_false, h, key]
    simp [key]

/-- Witness for C3: the all-`Missing` update of each sample record
returns the record and leaves the singleton table unchanged. -/
theorem update_all_missing_is_identity_witness :
    Incident.update 1 .allMissing [sampleIncident] = (.ok sampleIncident, [sampleIncident]) ∧
    ConfigItem.update 1 .allMissing [sampleConfigItem] =
      (.ok sampleConfigItem, [sampleConfigItem]) ∧
    Problem.update 1 .allMissing [sampleProblem] = (.ok sampleProblem, [sampleProblem]) ∧
    RFC.update 1 .allMissing [sampleRFC] = (.ok sampleRFC, [sampleRFC]) :=
  ⟨update_all_missing_is_identity.1 1 [sampleIncident] sampleIncident rfl,
   update_all_missing_is_identity.2.1 1 [sampleConfigItem] sampleConfigItem rfl,
   update_all_missing_is_identity.2.2.1 1 [sampleProblem] sampleProblem rfl,
   update_all_missing_is_identity.2.2.2 1 [sampleRFC] sampleRFC rfl⟩

/-- Claim C4: when an update succeeds, an explicitly nulled patchable
optional field (Incident resolved_at/owner/asignee, ConfigItem
type/owner, Problem workarounds/resolutions, RFC finished_at) is stored
as absent, whatever its prior value. -/
theorem update_null_clears_optional_field :
    (∀ id (u : IncidentUpdateset) db r' db', Incident.update id u db = (.ok r', db') →
        (u.resolved_at = some none → r'.resolved_at = none) ∧
        (u.owner = some none → r'.owner = none) ∧
        (u.asignee = some none → r'.asignee = none)) ∧
    (∀ id (u : ConfigItemUpdateset) db r' db', ConfigItem.update id u db = (.ok r', db') →
        (u.type = some none → r'.type = none) ∧
        (u.owner = some none → r'.owner = none)) ∧
    (∀ id (u : ProblemUpdateset) db r' db', Problem.update id u db = (.ok r', db') →
        (u.workarounds = .null → r'.workarounds = none) ∧
        (u.resolutions = .null → r'.resolutions = none)) ∧
    (∀ id (u : RFCUpdateset) db r' db', RFC.update id u db = (.ok r', db') →
        (u.finished_at = some none → r'.finished_at = none)) := by
  refine ⟨?_, ?_, ?_, ?_⟩
  · intro id u db r' db' h
    unfold Incident.update at h
    split at h
    · simp at h
    · split at h
      · simp at h
      · simp only [Prod.mk.injEq, Except.ok.injEq] at h
        obtain ⟨hr, _⟩ := h
        subst hr
        exact ⟨fun hn => by simp [Incident.applyUpdate, hn],
          fun hn => by simp [Incident.applyUpdate, hn],
          fun hn => by simp [Incident.applyUpdate, hn]⟩
  · intro id u db r' db' h
    unfold ConfigItem.update at h
    split at h
    · simp at h
    · split at h
      · simp at h
      · simp only [Prod.mk.injEq, Except.ok.injEq] at h
        obtain ⟨hr, _⟩ := h
        subst hr
        exact ⟨fun hn => by simp [ConfigItem.applyUpdate, hn],
          fun hn => by simp [ConfigItem.applyUpdate, hn]⟩
  · intro id u db r' db' h
    unfold Problem.update at h
    split at h
    · simp at h
    · split at h
      · simp at h
      · simp only [Prod.mk.injEq, Except.ok.injEq] at h
        obtain ⟨hr, _⟩ := h
        subst hr
        exact ⟨fun hn => by
            simp [Problem.applyUpdate, hn, PatchField.leave_unchanged, PatchField.intoOption],
          fun hn => by
            simp [Problem.applyUpdate, hn, PatchField.leave_unchanged, PatchField.intoOption]⟩
  · intro id u db r' db' h
    unfold RFC.update at h
    split at h
    · simp at h
    · split at h
      · simp at h
      · simp only [Prod.mk.injEq, Except.ok.injEq] at h
        obtain ⟨hr, _⟩ := h
        subst hr
        exact fun hn => by simp [RFC.applyUpdate, hn]

/-- Witness for C4: nulling the optional fields of a populated incident
and the patch fields of a populated problem clears them. -/
theorem update_null_clears_optional_field_witness :
    (∃ r' db', Incident.update 2 incidentNullOptionals [sampleIncident2] = (.ok r', db') ∧
      r'.resolved_at = none ∧ r'.owner = none ∧ r'.asignee = none) ∧
    (∃ p' pdb', Problem.update 1 problemNullPatches [sampleProblem] = (.ok p', pdb') ∧
      p'.workarounds = none ∧ p'.resolutions = none) :=
  ⟨⟨_, _, rfl,
    (update_null_clears_optional_field.1 2 incidentNullOptionals [sampleIncident2] _ _ rfl).1 rfl,
    (update_null_clears_optional_field.1 2 incidentNullOptionals [sampleIncident2] _ _ rfl).2.1 rfl,
    (update_null_clears_optional_field.1 2 incidentNullOptionals [sampleIncident2] _ _ rfl).2.2 rfl⟩,
   ⟨_, _, rfl,
    (update_null_clears_optional_field.2.2.1 1 problemNullPatches [sampleProblem] _ _ rfl).1 rfl,
    (update_null_clears_optional_field.2.2.1 1 problemNullPatches [sampleProblem] _ _ rfl).2 rfl⟩⟩

/-- Claim C8: each entity's create resolves an omitted status to the
entity default (Incident Open, ConfigItem Inactive, Problem Open, RFC
Open), stores a supplied status unchanged, and appends the returned
record to the table. -/
theorem create_default_status :
    (∀ cs g n db (r : Incident) db', Incident.create cs g n db = (.ok r, db') →
        (cs.status = none → r.status = .open_) ∧
        (∀ s, cs.status = some s → r.status = s) ∧ db' = db ++ [r]) ∧
    (∀ cs g n db (r : ConfigItem) db', ConfigItem.create cs g n db = (.ok r, db') →
        (cs.status = none → r.status = .inactive) ∧
        (∀ s, cs.status = some s → r.status = s) ∧ db' = db ++ [r]) ∧
    (∀ cs g n db (r : Problem) db', Problem.create cs g n db = (.ok r, db') →
        (cs.status = none → r.status = .open_) ∧
        (∀ s, cs.status = some s → r.status = s) ∧ db' = db ++ [r]) ∧
    (∀ cs g n db (r : RFC) db', RFC.create cs g n db = (.ok r, db') →
        (cs.status = none → r.status = .open_) ∧
        (∀ s, cs.status = some s → r.status = s) ∧ db' = db ++ [r]) := by
  refine ⟨?_, ?_, ?_, ?_⟩
  · intro cs g n db r db' h
    unfold Incident.create at h
    split at h
    · simp at h
    · simp only [Prod.mk.injEq, Except.ok.injEq] at h
      obtain ⟨hr, hdb⟩ := h
      subst hr; subst hdb
      exact ⟨fun h0 => by simp [h0], fun s hs => by simp [hs], rfl⟩
  · intro cs g n db r db' h
    unfold ConfigItem.create at h
    split at h
    · simp at h
    · simp only [Prod.mk.injEq, Except.ok.injEq] at h
      obtain ⟨hr, hdb⟩ := h
      subst hr; subst hdb
      exact ⟨fun h0 => by simp [h0], fun s hs => by simp [hs], rfl⟩
  · intro cs g n db r db' h
    unfold Problem.create at h
    split at h
    · simp at h
    · simp only [Prod.mk.injEq, Except.ok.injEq] at h
      obtain ⟨hr, hdb⟩ := h
      subst hr; subst hdb
      exact ⟨fun h0 => by simp [h0], fun s hs => by simp [hs], rfl⟩
  · intro cs g n db r db' h
    unfold RFC.create at h
    split at h
    · simp at h
    · simp only [Prod.mk.injEq, Except.ok.injEq] at h
      obtain ⟨hr, hdb⟩ := h
      subst hr; subst hdb
      exact ⟨fun h0 => by simp [h0], fun s hs => by simp [hs], rfl⟩

/-- Witness for C8: creating an incident without a status stores Open,
creating a configuration item without a status stores Inactive, and a
supplied Closed status is stored unchanged. -/
theorem create_default_status_witness :
    (∃ r db', Incident.create incidentCsDefault 1 5 [] = (.ok r, db') ∧ r.status = .open_) ∧
    (∃ r db', ConfigItem.create configItemCsDefault 1 5 [] = (.ok r, db') ∧
      r.status = .inactive) ∧
    (∃ r db', Incident.create incidentCsClosed 1 5 [] = (.ok r, db') ∧ r.status = .closed) :=
  ⟨⟨_, _, rfl, (create_default_status.1 incidentCsDefault 1 5 [] _ _ rfl).1 rfl⟩,
   ⟨_, _, rfl, (create_default_status.2.1 configItemCsDefault 1 5 [] _ _ rfl).1 rfl⟩,
   ⟨_, _, rfl, (create_default_status.1 incidentCsClosed 1 5 [] _ _ rfl).2.1 .closed rfl⟩⟩

/-- Claim C6: for every relation kind, create with a missing parent
returns NotFound and commits no relation row, and create with an
existing parent but a missing child reference returns ConstraintError
(distinct from a generic database error) and commits no relation row. -/
theorem relation_create_error_surface :
    (∀ iid cid (st : IncidentCIRelDb), iid ∉ st.incidents →
        IncidentCIRelation.create iid cid st = (.error .noRecordFound, st)) ∧
    (∀ iid cid (st : IncidentCIRelDb), iid ∈ st.incidents → cid ∉ st.configitems →
        IncidentCIRelation.create iid cid st = (.error .constraint, st)) ∧
    (∀ pid iid (st : ProblemIncidentRelDb), pid ∉ st.problems →
        ProblemIncidentRelation.create pid iid st = (.error .noRecordFound, st)) ∧
    (∀ pid iid (st : ProblemIncidentRelDb), pid ∈ st.problems → iid ∉ st.incidents →
        ProblemIncidentRelation.create pid iid st = (.error .constraint, st)) ∧
    (∀ rid pid g (st : RFCProblemRelDb), rid ∉ st.rfcs →
        RFCProblemRelation.create rid pid g st = (.error .noRecordFound, st)) ∧
    (∀ rid pid g (st : RFCProblemRelDb), rid ∈ st.rfcs → pid ∉ st.problems →
        RFCProblemRelation.create rid pid g st = (.error .constraint, st)) ∧
    (∀ rid iid g (st : RFCIncidentRelDb), rid ∉ st.rfcs →
        RFCIncidentRelation.create rid iid g st = (.error .noRecordFound, st)) ∧
    (∀ rid iid g (st : RFCIncidentRelDb), rid ∈ st.rfcs → iid ∉ st.incidents →
        RFCIncidentRelation.create rid iid g st = (.error .constraint, st)) :=
  ⟨fun iid cid st h => by simp [IncidentCIRelation.create, h],
   fun iid cid st h1 h2 => by simp [IncidentCIRelation.create, h1, h2],
   fun pid iid st h => by simp [ProblemIncidentRelation.create, h],
   fun pid iid st h1 h2 => by simp [ProblemIncidentRelation.create, h1, h2],
   fun rid pid g st h => by simp [RFCProblemRelation.create, h],
   fun rid pid g st h1 h2 => by simp [RFCProblemRelation.create, h1, h2],
   fun rid iid g st h => by simp [RFCIncidentRelation.create, h],
   fun rid iid g st h1 h2 => by simp [RFCIncidentRelation.create, h1, h2]⟩

/-- Witness for C6: with no incidents the incident-CI create is
NotFound; with the incident present but the configuration item absent it
is ConstraintError, and the committed relation table stays empty. -/
theorem relation_create_error_surface_witness :
    IncidentCIRelation.create 1 2 ⟨[], [], []⟩ = (.error .noRecordFound, ⟨[], [], []⟩) ∧
    IncidentCIRelation.create 1 2 ⟨[1], [], []⟩ = (.error .constraint, ⟨[1], [], []⟩) :=
  ⟨relation_create_error_surface.1 1 2 ⟨[], [], []⟩ (by simp),
   relation_create_error_surface.2.1 1 2 ⟨[1], [], []⟩ (by simp) (by simp)⟩

/-- Claim C10: a successful incident-CI or problem-incident relation
create returns a record whose description is the empty string and
commits exactly one new row, also with an empty description, whatever
the caller supplied. -/
theorem relation_create_empty_description :
    (∀ iid cid st rel st', IncidentCIRelation.create iid cid st = (.ok rel, st') →
        rel.description = "" ∧ st'.relations = st.relations ++ [⟨iid, cid, ""⟩]) ∧
    (∀ pid iid st rel st', ProblemIncidentRelation.create pid iid st = (.ok rel, st') →
        rel.description = "" ∧ st'.relations = st.relations ++ [⟨pid, iid, ""⟩]) := by
  constructor
  · intro iid cid st rel st' h
    unfold IncidentCIRelation.create at h
    split at h
    · simp at h
    · split at h
      · simp at h
      · simp only [Prod.mk.injEq, Except.ok.injEq] at h
        obtain ⟨hrel, hst⟩ := h
        subst hrel; subst hst
        exact ⟨rfl, rfl⟩
  · intro pid iid st rel st' h
    unfold ProblemIncidentRelation.create at h
    split at h
    · simp at h
    · split at h
      · simp at h
      · simp only [Prod.mk.injEq, Except.ok.injEq] at h
        obtain ⟨hrel, hst⟩ := h
        subst hrel; subst hst
        exact ⟨rfl, rfl⟩

/-- Witness for C10: a concrete successful create of each relation kind
yields an empty description. -/
theorem relation_create_empty_description_witness :
    (∃ rel st', IncidentCIRelation.create 1 2 ⟨[1], [2], []⟩ = (.ok rel, st') ∧
      rel.description = "") ∧
    (∃ rel st', ProblemIncidentRelation.create 1 2 ⟨[1], [2], []⟩ = (.ok rel, st') ∧
      rel.description = "") :=
  ⟨⟨_, _, rfl, (relation_create_empty_description.1 1 2 ⟨[1], [2], []⟩ _ _ rfl).1⟩,
   ⟨_, _, rfl, (relation_create_empty_description.2 1 2 ⟨[1], [2], []⟩ _ _ rfl).1⟩⟩

/-- Claim C2 (code bug): `configuration::changes::create` never changes
the committed state — it returns `Ok(record)` out of an uncommitted
transaction, so a subsequent read of the returned id finds nothing when
the generated id was fresh. -/
theorem ci_change_create_not_persisted :
    (∀ ci_id cs g (st : CIChangeDb), (CIChange.create ci_id cs g st).2 = st) ∧
    (∀ ci_id cs g (st : CIChangeDb) c st', CIChange.create ci_id cs g st = (.ok c, st') →
        st.ci_changes.all (fun ch => ch.id != g) = true →
        CIChange.load c.id ci_id st' = .error .noRecordFound) := by
  constructor
  · intro ci_id cs g st
    unfold CIChange.create
    split
    · rfl
    · split <;> rfl
  · intro ci_id cs g st c st' h hfresh
    unfold CIChange.create at h
    split at h
    · simp at h
    · split at h
      · simp at h
      · simp only [Prod.mk.injEq, Except.ok.injEq] at h
        obtain ⟨hc, hst⟩ := h
        subst hc; subst hst
        unfold CIChange.load
        have hfind :
            st.ci_changes.find? (fun ch => ch.id == g && ch.ci_id == ci_id) = none := by
          rw [List.find?_eq_none]
          intro x hx
          have := (List.all_eq_true.mp hfresh) x hx
          simp only [bne_iff_ne, ne_eq] at this
          simp [this]
        simp [hfind]

/-- Witness for C2: a valid CI-change create against an existing
configuration item returns Ok but the committed table is unchanged and
the returned id is unreadable. -/
theorem ci_change_create_not_persisted_witness :
    (CIChange.create 1 ciChangeCs 7 ⟨[1], []⟩).2 = ⟨[1], []⟩ ∧
    (∃ c, CIChange.create 1 ciChangeCs 7 ⟨[1], []⟩ = (.ok c, ⟨[1], []⟩) ∧
      CIChange.load c.id 1 ⟨[1], []⟩ = .error .noRecordFound) :=
  ⟨ci_change_create_not_persisted.1 1 ciChangeCs 7 ⟨[1], []⟩,
   ⟨_, rfl, ci_change_create_not_persisted.2 1 ciChangeCs 7 ⟨[1], []⟩ _ _ rfl rfl⟩⟩

/-- Claim C1 (amended): for the ConfigItem, Incident and RFC updatesets,
any required field explicitly set to `Some(None)` makes update return
ValidationError with the table unchanged; the Problem updateset cannot
represent an explicit null on its required fields — a JSON null
deserializes to the same updateset as omitting the key, and update then
succeeds and leaves the field unchanged instead of failing validation. -/
theorem required_field_null_guard :
    (∀ id (u : ConfigItemUpdateset) db,
        u.name = some none ∨ u.status = some none ∨ u.created_at = some none ∨
          u.description = some none →
        ConfigItem.update id u db = (.error .validation, db)) ∧
    (∀ id (u : IncidentUpdateset) db,
        u.title = some none ∨ u.status = some none ∨ u.created_at = some none ∨
          u.impact = some none ∨ u.urgency = some none ∨ u.description = some none →
        Incident.update id u db = (.error .validation, db)) ∧
    (∀ id (u : RFCUpdateset) db,
        u.title = some none ∨ u.status = some none ∨ u.created_at = some none ∨
          u.requester = some none ∨ u.description = some none →
        RFC.update id u db = (.error .validation, db)) ∧
    (ProblemUpdateset.fromJson (Json.obj [("title", Json.null)]) =
      some ProblemUpdateset.allMissing) ∧
    (∀ id db (r : Problem) (u : ProblemUpdateset),
        db.find? (fun s => s.id == id) = some r → u.validate = true → u.title = none →
        (Problem.update id u db).1 = .ok (r.applyUpdate u) ∧
          (r.applyUpdate u).title = r.title) := by
  refine ⟨?_, ?_, ?_, rfl, ?_⟩
  · intro id u db h
    have hv : u.validate = false := by
      rcases h with h | h | h | h <;>
        simp [ConfigItemUpdateset.validate, ConfigItemUpdateset.validate_required_fields,
          validate_not_null, h]
    simp [ConfigItem.update, hv]
  · intro id u db h
    have hv : u.validate = false := by
      rcases h with h | h | h | h | h | h <;>
        simp [IncidentUpdateset.validate, IncidentUpdateset.validate_required_fields,
          validate_not_null, h]
    simp [Incident.update, hv]
  · intro id u db h
    have hv : u.validate = false := by
      rcases h with h | h | h | h | h <;>
        simp [RFCUpdateset.validate, RFCUpdateset.validate_required_fields,
          validate_not_null, h]
    simp [RFC.update, hv]
  · intro id db r u hf hv hn
    constructor
    · simp [Problem.update, hv, hf]
    · simp [Problem.applyUpdate, hn]

/-- Witness for C1: an explicitly nulled name fails the ConfigItem
update, and updating the sample problem with the updateset obtained from
a JSON null title succeeds without touching the title. -/
theorem required_field_null_guard_witness :
    ConfigItem.update 1 ⟨some none, none, none, none, none, none⟩ [sampleConfigItem] =
      (.error .validation, [sampleConfigItem]) ∧
    (Problem.update 1 ProblemUpdateset.allMissing [sampleProblem]).1 =
      .ok (sampleProblem.applyUpdate ProblemUpdateset.allMissing) ∧
    (sampleProblem.applyUpdate ProblemUpdateset.allMissing).title = sampleProblem.title :=
  ⟨required_field_null_guard.1 1 ⟨some none, none, none, none, none, none⟩
      [sampleConfigItem] (Or.inl rfl),
   (required_field_null_guard.2.2.2.2 1 [sampleProblem] sampleProblem
      ProblemUpdateset.allMissing rfl rfl rfl).1,
   (required_field_null_guard.2.2.2.2 1 [sampleProblem] sampleProblem
      ProblemUpdateset.allMissing rfl rfl rfl).2⟩

/-- Counterexample to C1 as stated: a JSON body with an explicit null
title for a Problem deserializes to the all-`Missing` updateset, and the
update then returns Ok with the record unchanged — not ValidationError. -/
theorem problem_required_null_no_validation_error :
    ProblemUpdateset.fromJson (Json.obj [("title", Json.null)]) =
      some ProblemUpdateset.allMissing ∧
    Problem.update 1 ProblemUpdateset.allMissing [sampleProblem] =
      (.ok sampleProblem, [sampleProblem]) ∧
    (Problem.update 1 ProblemUpdateset.allMissing [sampleProblem]).1 ≠
      .error .validation :=
  ⟨rfl, rfl, fun h => Except.noConfusion h⟩

/-- Claim C7 (amended): for the three double-option updatesets
(`ConfigItemUpdateset`, `IncidentUpdateset`, `RFCUpdateset`) the
tri-state wire contract holds — the all-`Missing` updateset serializes
to the empty object, `{}` deserializes to all-`Missing`, serialization
omits `Missing` fields and round-trips every updateset, and
deserialization maps an absent key to `Missing`, a null to `Null` and a
value to `Value`; the `PatchField` fields of `ProblemUpdateset` obey the
same mapping, but its plain-option fields collapse a null to `Missing`
and serialize `Missing` as an explicit null, so the all-`Missing`
`ProblemUpdateset` does not serialize to the empty object (`{}` still
deserializes to all-`Missing`). -/
theorem updateset_json_tristate :
    (ConfigItemUpdateset.toJson .allMissing = Json.obj []) ∧
    (ConfigItemUpdateset.fromJson (Json.obj []) = some .allMissing) ∧
    (∀ u : ConfigItemUpdateset, ConfigItemUpdateset.fromJson u.toJson = some u) ∧
    (∀ u : ConfigItemUpdateset, u.owner = none →
        ∃ fs, u.toJson = Json.obj fs ∧ fs.lookup "owner" = none) ∧
    (∀ fields (u : ConfigItemUpdateset),
        ConfigItemUpdateset.fromJson (.obj fields) = some u →
        (fields.lookup "name" = none → u.name = none) ∧
        (fields.lookup "name" = some Json.null → u.name = some none) ∧
        (∀ s, fields.lookup "name" = some (Json.str s) → u.name = some (some s))) ∧
    (IncidentUpdateset.toJson .allMissing = Json.obj []) ∧
    (IncidentUpdateset.fromJson (Json.obj []) = some .allMissing) ∧
    (∀ u : IncidentUpdateset, IncidentUpdateset.fromJson u.toJson = some u) ∧
    (∀ u : IncidentUpdateset, u.owner = none →
        ∃ fs, u.toJson = Json.obj fs ∧ fs.lookup "owner" = none) ∧
    (∀ fields (u : IncidentUpdateset),
        IncidentUpdateset.fromJson (.obj fields) = some u →
        (fields.lookup "title" = none → u.title = none) ∧
        (fields.lookup "title" = some Json.null → u.title = some none) ∧
        (∀ s, fields.lookup "title" = some (Json.str s) → u.title = some (some s))) ∧
    (RFCUpdateset.toJson .allMissing = Json.obj []) ∧
    (RFCUpdateset.fromJson (Json.obj []) = some .allMissing) ∧
    (∀ u : RFCUpdateset, RFCUpdateset.fromJson u.toJson = some u) ∧
    (∀ u : RFCUpdateset, u.finished_at = none →
        ∃ fs, u.toJson = Json.obj fs ∧ fs.lookup "finished_at" = none) ∧
    (∀ fields (u : RFCUpdateset),
        RFCUpdateset.fromJson (.obj fields) = some u →
        (fields.lookup "title" = none → u.title = none) ∧
        (fields.lookup "title" = some Json.null → u.title = some none) ∧
        (∀ s, fields.lookup "title" = some (Json.str s) → u.title = some (some s))) ∧
    (∀ fields (u : ProblemUpdateset),
        ProblemUpdateset.fromJson (.obj fields) = some u →
        (fields.lookup "workarounds" = none → u.workarounds = .missing) ∧
        (fields.lookup "workarounds" = some Json.null → u.workarounds = .null) ∧
        (∀ s, fields.lookup "workarounds" = some (Json.str s) → u.workarounds = .value s)) ∧
    (∀ fields (u : ProblemUpdateset),
        ProblemUpdateset.fromJson (.obj fields) = some u →
        fields.lookup "title" = some Json.null → u.title = none) ∧
    (ProblemUpdateset.fromJson (Json.obj []) = some .allMissing) ∧
    (ProblemUpdateset.toJson .allMissing =
      Json.obj [("title", Json.null), ("status", Json.null),
        ("detection_timedate", Json.null), ("description", Json.null),
        ("causes", Json.null)]) := by
  refine ⟨rfl, rfl, ?_, ?_, ?_, rfl, rfl, ?_, ?_, ?_, rfl, rfl, ?_, ?_, ?_, ?_, ?_,
    rfl, rfl⟩
  · intro u
    obtain ⟨n, s, c, t, o, d⟩ := u
    simp only [ConfigItemUpdateset.toJson, List.append_assoc]
    simp only [ConfigItemUpdateset.fromJson]
    rw [decodeDouble_hit Json.str decStr decStr_str Json.str_ne_null "name" n _ (by
          rw [lookup_append _ _ _ (lookup_encodeDouble_none CIStatus.toJson "status" "name" s rfl)]
          rw [lookup_append _ _ _ (lookup_encodeDouble_none Json.num "created_at" "name" c rfl)]
          rw [lookup_append _ _ _ (lookup_encodeDouble_none Json.str "type" "name" t rfl)]
          rw [lookup_append _ _ _ (lookup_encodeDouble_none Json.str "owner" "name" o rfl)]
          exact lookup_encodeDouble_none Json.str "description" "name" d rfl)]
    rw [decodeDouble_skip CIStatus.fromJson Json.str "name" "status" n _ rfl,
        decodeDouble_hit CIStatus.toJson CIStatus.fromJson ciStatus_fromJson_toJson
          ciStatus_toJson_ne_null "status" s _ (by
          rw [lookup_append _ _ _ (lookup_encodeDouble_none Json.num "created_at" "status" c rfl)]
          rw [lookup_append _ _ _ (lookup_encodeDouble_none Json.str "type" "status" t rfl)]
          rw [lookup_append _ _ _ (lookup_encodeDouble_none Json.str "owner" "status" o rfl)]
          exact lookup_encodeDouble_none Json.str "description" "status" d rfl)]
    rw [decodeDouble_skip decNum Json.str "name" "created_at" n _ rfl,
        decodeDouble_skip decNum CIStatus.toJson "status" "created_at" s _ rfl,
        decodeDouble_hit Json.num decNum decNum_num Json.num_ne_null "created_at" c _ (by
          rw [lookup_append _ _ _ (lookup_encodeDouble_none Json.str "type" "created_at" t rfl)]
          rw [lookup_append _ _ _ (lookup_encodeDouble_none Json.str "owner" "created_at" o rfl)]
          exact lookup_encodeDouble_none Json.str "description" "created_at" d rfl)]
    rw [decodeDouble_skip decStr Json.str "name" "type" n _ rfl,
        decodeDouble_skip decStr CIStatus.toJson "status" "type" s _ rfl,
        decodeDouble_skip decStr Json.num "created_at" "type" c _ rfl,
        decodeDouble_hit Json.str decStr decStr_str Json.str_ne_null "type" t _ (by
          rw [lookup_append _ _ _ (lookup_encodeDouble_none Json.str "owner" "type" o rfl)]
          exact lookup_encodeDouble_none Json.str "description" "type" d rfl)]
    rw [decodeDouble_skip decStr Json.str "name" "owner" n _ rfl,
        decodeDouble_skip decStr CIStatus.toJson "status" "owner" s _ rfl,
        decodeDouble_skip decStr Json.num "created_at" "owner" c _ rfl,
        decodeDouble_skip decStr Json.str "type" "owner" t _ rfl,
        decodeDouble_hit Json.str decStr decStr_str Json.str_ne_null "owner" o _
          (lookup_encodeDouble_none Json.str "description" "owner" d rfl)]
    rw [decodeDouble_skip decStr Json.str "name" "description" n _ rfl,
        decodeDouble_skip decStr CIStatus.toJson "status" "description" s _ rfl,
        decodeDouble_skip decStr Json.num "created_at" "description" c _ rfl,
        decodeDouble_skip decStr Json.str "type" "description" t _ rfl,
        decodeDouble_skip decStr Json.str "owner" "description" o _ rfl]
    rw [show decodeDoubleOptField decStr
          (encodeDoubleOptField Json.str "description" d) "description" = some d from by
      have := decodeDouble_hit Json.str decStr decStr_str Json.str_ne_null "description" d [] rfl
      rwa [List.append_nil] at this]
    rfl
  · intro u h
    obtain ⟨n, s, c, t, o, d⟩ := u
    subst h
    refine ⟨_, rfl, ?_⟩
    simp only [ConfigItemUpdateset.toJson, List.append_assoc]
    rw [lookup_append _ _ _ (lookup_encodeDouble_none Json.str "name" "owner" n rfl)]
    rw [lookup_append _ _ _ (lookup_encodeDouble_none CIStatus.toJson "status" "owner" s rfl)]
    rw [lookup_append _ _ _ (lookup_encodeDouble_none Json.num "created_at" "owner" c rfl)]
    rw [lookup_append _ _ _ (lookup_encodeDouble_none Json.str "type" "owner" t rfl)]
    rw [show encodeDoubleOptField Json.str "owner" (none : Option (Option String)) = []
          from rfl]
    rw [List.nil_append]
    exact lookup_encodeDouble_none Json.str "description" "owner" d rfl
  · intro fields u h
    have h1 := ConfigItemUpdateset.fromJson_obj_name fields u h
    refine ⟨fun hl => ?_, fun hl => ?_, fun s hl => ?_⟩ <;>
      simp only [decodeDoubleOptField, hl, decStr, Option.map_some] at h1 <;>
      exact (Option.some.inj h1).symm
  · intro u
    obtain ⟨t, s, c, r, i, g, o, a, d⟩ := u
    simp only [IncidentUpdateset.toJson, List.append_assoc]
    simp only [IncidentUpdateset.fromJson]
    rw [decodeDouble_hit Json.str decStr decStr_str Json.str_ne_null "title" t _ (by
          rw [lookup_append _ _ _ (lookup_encodeDouble_none IncidentStatus.toJson "status" "title" s rfl)]
          rw [lookup_append _ _ _ (lookup_encodeDouble_none Json.num "created_at" "title" c rfl)]
          rw [lookup_append _ _ _ (lookup_encodeDouble_none Json.num "resolved_at" "title" r rfl)]
          rw [lookup_append _ _ _ (lookup_encodeDouble_none IncidentImpact.toJson "impact" "title" i rfl)]
          rw [lookup_append _ _ _ (lookup_encodeDouble_none IncidentUrgency.toJson "urgency" "title" g rfl)]
          rw [lookup_append _ _ _ (lookup_encodeDouble_none Json.str "owner" "title" o rfl)]
          rw [lookup_append _ _ _ (lookup_encodeDouble_none Json.str "asignee" "title" a rfl)]
          exact lookup_encodeDouble_none Json.str "description" "title" d rfl)]
    rw [decodeDouble_skip IncidentStatus.fromJson Json.str "title" "status" t _ rfl,
        decodeDouble_hit IncidentStatus.toJson IncidentStatus.fromJson incidentStatus_fromJson_toJson incidentStatus_toJson_ne_null "status" s _ (by
          rw [lookup_append _ _ _ (lookup_encodeDouble_none Json.num "created_at" "status" c rfl)]
          rw [lookup_append _ _ _ (lookup_encodeDouble_none Json.num "resolved_at" "status" r rfl)]
          rw [lookup_append _ _ _ (lookup_encodeDouble_none IncidentImpact.toJson "impact" "status" i rfl)]
          rw [lookup_append _ _ _ (lookup_encodeDouble_none IncidentUrgency.toJson "urgency" "status" g rfl)]
          rw [lookup_append _ _ _ (lookup_encodeDouble_none Json.str "owner" "status" o rfl)]
          rw [lookup_append _ _ _ (lookup_encodeDouble_none Json.str "asignee" "status" a rfl)]
          exact lookup_encodeDouble_none Json.str "description" "status" d rfl)]
    rw [decodeDouble_skip decNum Json.str "title" "created_at" t _ rfl,
        decodeDouble_skip decNum IncidentStatus.toJson "status" "created_at" s _ rfl,
        decodeDouble_hit Json.num decNum decNum_num Json.num_ne_null "created_at" c _ (by
          rw [lookup_append _ _ _ (lookup_encodeDouble_none Json.num "resolved_at" "created_at" r rfl)]
          rw [lookup_append _ _ _ (lookup_encodeDouble_none IncidentImpact.toJson "impact" "created_at" i rfl)]
          rw [lookup_append _ _ _ (lookup_encodeDouble_none IncidentUrgency.toJson "urgency" "created_at" g rfl)]
          rw [lookup_append _ _ _ (lookup_encodeDouble_none Json.str "owner" "created_at" o rfl)]
          rw [lookup_append _ _ _ (lookup_encodeDouble_none Json.str "asignee" "created_at" a rfl)]
          exact lookup_encodeDouble_none Json.str "description" "created_at" d rfl)]
    rw [decodeDouble_skip decNum Json.str "title" "resolved_at" t _ rfl,
        decodeDouble_skip decNum IncidentStatus.toJson "status" "resolved_at" s _ rfl,
        decodeDouble_skip decNum Json.num "created_at" "resolved_at" c _ rfl,
        decodeDouble_hit Json.num decNum decNum_num Json.num_ne_null "resolved_at" r _ (by
          rw [lookup_append _ _ _ (lookup_encodeDouble_none IncidentImpact.toJson "impact" "resolved_at" i rfl)]
          rw [lookup_append _ _ _ (lookup_encodeDouble_none IncidentUrgency.toJson "urgency" "resolved_at" g rfl)]
          rw [lookup_append _ _ _ (lookup_encodeDouble_none Json.str "owner" "resolved_at" o rfl)]
          rw [lookup_append _ _ _ (lookup_encodeDouble_none Json.str "asignee" "resolved_at" a rfl)]
          exact lookup_encodeDouble_none Json.str "description" "resolved_at" d rfl)]
    rw [decodeDouble_skip IncidentImpact.fromJson Json.str "title" "impact" t _ rfl,
        decodeDouble_skip IncidentImpact.fromJson IncidentStatus.toJson "status" "impact" s _ rfl,
        decodeDouble_skip IncidentImpact.fromJson Json.num "created_at" "impact" c _ rfl,
        decodeDouble_skip IncidentImpact.fromJson Json.num "resolved_at" "impact" r _ rfl,
        decodeDouble_hit IncidentImpact.toJson IncidentImpact.fromJson incidentImpact_fromJson_toJson incidentImpact_toJson_ne_null "impact" i _ (by
          rw [lookup_append _ _ _ (lookup_encodeDouble_none IncidentUrgency.toJson "urgency" "impact" g rfl)]
          rw [lookup_append _ _ _ (lookup_encodeDouble_none Json.str "owner" "impact" o rfl)]
          rw [lookup_append _ _ _ (lookup_encodeDouble_none Json.str "asignee" "impact" a rfl)]
          exact lookup_encodeDouble_none Json.str "description" "impact" d rfl)]
    rw [decodeDouble_skip IncidentUrgency.fromJson Json.str "title" "urgency" t _ rfl,
        decodeDouble_skip IncidentUrgency.fromJson IncidentStatus.toJson "status" "urgency" s _ rfl,
        decodeDouble_skip IncidentUrgency.fromJson Json.num "created_at" "urgency" c _ rfl,
        decodeDouble_skip IncidentUrgency.fromJson Json.num "resolved_at" "urgency" r _ rfl,
        decodeDouble_skip IncidentUrgency.fromJson IncidentImpact.toJson "impact" "urgency" i _ rfl,
        decodeDouble_hit IncidentUrgency.toJson IncidentUrgency.fromJson incidentUrgency_fromJson_toJson incidentUrgency_toJson_ne_null "urgency" g _ (by
          rw [lookup_append _ _ _ (lookup_encodeDouble_none Json.str "owner" "urgency" o rfl)]
          rw [lookup_append _ _ _ (lookup_encodeDouble_none Json.str "asignee" "urgency" a rfl)]
          exact lookup_encodeDouble_none Json.str "description" "urgency" d rfl)]
    rw [decodeDouble_skip decStr Json.str "title" "owner" t _ rfl,
        decodeDouble_skip decStr IncidentStatus.toJson "status" "owner" s _ rfl,
        decodeDouble_skip decStr Json.num "created_at" "owner" c _ rfl,
        decodeDouble_skip decStr Json.num "resolved_at" "owner" r _ rfl,
        decodeDouble_skip decStr IncidentImpact.toJson "impact" "owner" i _ rfl,
        decodeDouble_skip decStr IncidentUrgency.toJson "urgency" "owner" g _ rfl,
        decodeDouble_hit Json.str decStr decStr_str Json.str_ne_null "owner" o _ (by
          rw [lookup_append _ _ _ (lookup_encodeDouble_none Json.str "asignee" "owner" a rfl)]
          exact lookup_encodeDouble_none Json.str "description" "owner" d rfl)]
    rw [decodeDouble_skip decStr Json.str "title" "asignee" t _ rfl,
        decodeDouble_skip decStr IncidentStatus.toJson "status" "asignee" s _ rfl,
        decodeDouble_skip decStr Json.num "created_at" "asignee" c _ rfl,
        decodeDouble_skip decStr Json.num "resolved_at" "asignee" r _ rfl,
        decodeDouble_skip decStr IncidentImpact.toJson "impact" "asignee" i _ rfl,
        decodeDouble_skip decStr IncidentUrgency.toJson "urgency" "asignee" g _ rfl,
        decodeDouble_skip decStr Json.str "owner" "asignee" o _ rfl,
        decodeDouble_hit Json.str decStr decStr_str Json.str_ne_null "asignee" a _ (by
          exact lookup_encodeDouble_none Json.str "description" "asignee" d rfl)]
    rw [decodeDouble_skip decStr Json.str "title" "description" t _ rfl,
        decodeDouble_skip decStr IncidentStatus.toJson "status" "description" s _ rfl,
        decodeDouble_skip decStr Json.num "created_at" "description" c _ rfl,
        decodeDouble_skip decStr Json.num "resolved_at" "description" r _ rfl,
        decodeDouble_skip decStr IncidentImpact.toJson "impact" "description" i _ rfl,
        decodeDouble_skip decStr IncidentUrgency.toJson "urgency" "description" g _ rfl,
        decodeDouble_skip decStr Json.str "owner" "description" o _ rfl,
        decodeDouble_skip decStr Json.str "asignee" "description" a _ rfl]
    rw [show decodeDoubleOptField decStr
          (encodeDoubleOptField Json.str "description" d) "description" = some d from by
      have := decodeDouble_hit Json.str decStr decStr_str Json.str_ne_null "description" d [] rfl
      rwa [List.append_nil] at this]
    rfl
  · intro u h
    obtain ⟨t, s, c, r, i, g, o, a, d⟩ := u
    subst h
    refine ⟨_, rfl, ?_⟩
    simp only [IncidentUpdateset.toJson, List.append_assoc]
    rw [lookup_append _ _ _ (lookup_encodeDouble_none Json.str "title" "owner" t rfl)]
    rw [lookup_append _ _ _ (lookup_encodeDouble_none IncidentStatus.toJson "status" "owner" s rfl)]
    rw [lookup_append _ _ _ (lookup_encodeDouble_none Json.num "created_at" "owner" c rfl)]
    rw [lookup_append _ _ _ (lookup_encodeDouble_none Json.num "resolved_at" "owner" r rfl)]
    rw [lookup_append _ _ _ (lookup_encodeDouble_none IncidentImpact.toJson "impact" "owner" i rfl)]
    rw [lookup_append _ _ _ (lookup_encodeDouble_none IncidentUrgency.toJson "urgency" "owner" g rfl)]
    rw [show encodeDoubleOptField Json.str "owner" (none : Option (Option String)) = []
          from rfl]
    rw [List.nil_append]
    rw [lookup_append _ _ _ (lookup_encodeDouble_none Json.str "asignee" "owner" a rfl)]
    exact lookup_encodeDouble_none Json.str "description" "owner" d rfl
  · intro fields u h
    have h1 := incidentUpd_fromJson_obj_title fields u h
    refine ⟨fun hl => ?_, fun hl => ?_, fun s hl => ?_⟩ <;>
      simp only [decodeDoubleOptField, hl, decStr, Option.map_some] at h1 <;>
      exact (Option.some.inj h1).symm
  · intro u
    obtain ⟨t, s, c, f, q, d⟩ := u
    simp only [RFCUpdateset.toJson, List.append_assoc]
    simp only [RFCUpdateset.fromJson]
    rw [decodeDouble_hit Json.str decStr decStr_str Json.str_ne_null "title" t _ (by
          rw [lookup_append _ _ _ (lookup_encodeDouble_none RFCStatus.toJson "status" "title" s rfl)]
          rw [lookup_append _ _ _ (lookup_encodeDouble_none Json.num "created_at" "title" c rfl)]
          rw [lookup_append _ _ _ (lookup_encodeDouble_none Json.num "finished_at" "title" f rfl)]
          rw [lookup_append _ _ _ (lookup_encodeDouble_none Json.str "requester" "title" q rfl)]
          exact lookup_encodeDouble_none Json.str "description" "title" d rfl)]
    rw [decodeDouble_skip RFCStatus.fromJson Json.str "title" "status" t _ rfl,
        decodeDouble_hit RFCStatus.toJson RFCStatus.fromJson rfcStatus_fromJson_toJson rfcStatus_toJson_ne_null "status" s _ (by
          rw [lookup_append _ _ _ (lookup_encodeDouble_none Json.num "created_at" "status" c rfl)]
          rw [lookup_append _ _ _ (lookup_encodeDouble_none Json.num "finished_at" "status" f rfl)]
          rw [lookup_append _ _ _ (lookup_encodeDouble_none Json.str "requester" "status" q rfl)]
          exact lookup_encodeDouble_none Json.str "description" "status" d rfl)]
    rw [decodeDouble_skip decNum Json.str "title" "created_at" t _ rfl,
        decodeDouble_skip decNum RFCStatus.toJson "status" "created_at" s _ rfl,
        decodeDouble_hit Json.num decNum decNum_num Json.num_ne_null "created_at" c _ (by
          rw [lookup_append _ _ _ (lookup_encodeDouble_none Json.num "finished_at" "created_at" f rfl)]
          rw [lookup_append _ _ _ (lookup_encodeDouble_none Json.str "requester" "created_at" q rfl)]
          exact lookup_encodeDouble_none Json.str "description" "created_at" d rfl)]
    rw [decodeDouble_skip decNum Json.str "title" "finished_at" t _ rfl,
        decodeDouble_skip decNum RFCStatus.toJson "status" "finished_at" s _ rfl,
        decodeDouble_skip decNum Json.num "created_at" "finished_at" c _ rfl,
        decodeDouble_hit Json.num decNum decNum_num Json.num_ne_null "finished_at" f _ (by
          rw [lookup_append _ _ _ (lookup_encodeDouble_none Json.str "requester" "finished_at" q rfl)]
          exact lookup_encodeDouble_none Json.str "description" "finished_at" d rfl)]
    rw [decodeDouble_skip decStr Json.str "title" "requester" t _ rfl,
        decodeDouble_skip decStr RFCStatus.toJson "status" "requester" s _ rfl,
        decodeDouble_skip decStr Json.num "created_at" "requester" c _ rfl,
        decodeDouble_skip decStr Json.num "finished_at" "requester" f _ rfl,
        decodeDouble_hit Json.str decStr decStr_str Json.str_ne_null "requester" q _ (by
          exact lookup_encodeDouble_none Json.str "description" "requester" d rfl)]
    rw [decodeDouble_skip decStr Json.str "title" "description" t _ rfl,
        decodeDouble_skip decStr RFCStatus.toJson "status" "description" s _ rfl,
        decodeDouble_skip decStr Json.num "created_at" "description" c _ rfl,
        decodeDouble_skip decStr Json.num "finished_at" "description" f _ rfl,
        decodeDouble_skip decStr Json.str "requester" "description" q _ rfl]
    rw [show decodeDoubleOptField decStr
          (encodeDoubleOptField Json.str "description" d) "description" = some d from by
      have := decodeDouble_hit Json.str decStr decStr_str Json.str_ne_null "description" d [] rfl
      rwa [List.append_nil] at this]
    rfl
  · intro u h
    obtain ⟨t, s, c, f, q, d⟩ := u
    subst h
    refine ⟨_, rfl, ?_⟩
    simp only [RFCUpdateset.toJson, List.append_assoc]
    rw [lookup_append _ _ _ (lookup_encodeDouble_none Json.str "title" "finished_at" t rfl)]
    rw [lookup_append _ _ _ (lookup_encodeDouble_none RFCStatus.toJson "status" "finished_at" s rfl)]
    rw [lookup_append _ _ _ (lookup_encodeDouble_none Json.num "created_at" "finished_at" c rfl)]
    rw [show encodeDoubleOptField Json.num "finished_at" (none : Option (Option Timestamp)) = []
          from rfl]
    rw [List.nil_append]
    rw [lookup_append _ _ _ (lookup_encodeDouble_none Json.str "requester" "finished_at" q rfl)]
    exact lookup_encodeDouble_none Json.str "description" "finished_at" d rfl
  · intro fields u h
    have h1 := rfcUpd_fromJson_obj_title fields u h
    refine ⟨fun hl => ?_, fun hl => ?_, fun s hl => ?_⟩ <;>
      simp only [decodeDoubleOptField, hl, decStr, Option.map_some] at h1 <;>
      exact (Option.some.inj h1).symm
  · intro fields u h
    have h1 := ProblemUpdateset.fromJson_obj_workarounds fields u h
    refine ⟨fun hl => ?_, fun hl => ?_, fun s hl => ?_⟩ <;>
      simp only [decodePatchField, hl, decStr, Option.map_some] at h1 <;>
      exact (Option.some.inj h1).symm
  · intro fields u h hl
    have h1 := problemUpd_fromJson_obj_title fields u h
    simp only [decodeOptField, hl] at h1
    exact (Option.some.inj h1).symm

/-- Witness for C7: concrete mixed updatesets of all three double-option
kinds round-trip with their missing field omitted, and concrete
singleton objects decode to the three patch states (and to the Problem
null-collapse). -/
theorem updateset_json_tristate_witness :
    ConfigItemUpdateset.fromJson (ConfigItemUpdateset.toJson ciSample) = some ciSample ∧
    (∃ fs, ConfigItemUpdateset.toJson ciSample = Json.obj fs ∧ fs.lookup "owner" = none) ∧
    (⟨some none, none, none, none, none, none⟩ : ConfigItemUpdateset).name = some none ∧
    IncidentUpdateset.fromJson (IncidentUpdateset.toJson incidentUpdSample) =
      some incidentUpdSample ∧
    (∃ fs, IncidentUpdateset.toJson incidentUpdSample = Json.obj fs ∧
      fs.lookup "owner" = none) ∧
    (⟨some none, none, none, none, none, none, none, none, none⟩ :
      IncidentUpdateset).title = some none ∧
    RFCUpdateset.fromJson (RFCUpdateset.toJson rfcUpdSample) = some rfcUpdSample ∧
    (∃ fs, RFCUpdateset.toJson rfcUpdSample = Json.obj fs ∧
      fs.lookup "finished_at" = none) ∧
    (⟨some (some "T"), none, none, none, none, none⟩ : RFCUpdateset).title =
      some (some "T") ∧
    (⟨none, none, none, none, none, .value "w", .missing⟩ : ProblemUpdateset).workarounds =
      .value "w" ∧
    ProblemUpdateset.allMissing.title = none := by
  refine ⟨?_, ?_, ?_, ?_, ?_, ?_, ?_, ?_, ?_, ?_, ?_⟩
  · exact updateset_json_tristate.2.2.1 ciSample
  · exact updateset_json_tristate.2.2.2.1 ciSample rfl
  · exact (updateset_json_tristate.2.2.2.2.1 [("name", Json.null)]
      ⟨some none, none, none, none, none, none⟩ rfl).2.1 rfl
  · exact updateset_json_tristate.2.2.2.2.2.2.2.1 incidentUpdSample
  · exact updateset_json_tristate.2.2.2.2.2.2.2.2.1 incidentUpdSample rfl
  · exact (updateset_json_tristate.2.2.2.2.2.2.2.2.2.1 [("title", Json.null)]
      ⟨some none, none, none, none, none, none, none, none, none⟩ rfl).2.1 rfl
  · exact updateset_json_tristate.2.2.2.2.2.2.2.2.2.2.2.2.1 rfcUpdSample
  · exact updateset_json_tristate.2.2.2.2.2.2.2.2.2.2.2.2.2.1 rfcUpdSample rfl
  · exact (updateset_json_tristate.2.2.2.2.2.2.2.2.2.2.2.2.2.2.1
      [("title", Json.str "T")]
      ⟨some (some "T"), none, none, none, none, none⟩ rfl).2.2 "T" rfl
  · exact (updateset_json_tristate.2.2.2.2.2.2.2.2.2.2.2.2.2.2.2.1
      [("workarounds", Json.str "w")]
      ⟨none, none, none, none, none, .value "w", .missing⟩ rfl).2.2 "w" rfl
  · exact updateset_json_tristate.2.2.2.2.2.2.2.2.2.2.2.2.2.2.2.2.1
      [("title", Json.null)] ProblemUpdateset.allMissing rfl rfl

/-- Counterexample to C7 as stated: serializing the all-`Missing`
`ProblemUpdateset` does not produce the empty JSON object — its
plain-option fields are emitted as explicit nulls. -/
theorem problem_all_missing_serializes_nonempty :
    ProblemUpdateset.toJson .allMissing ≠ Json.obj [] := by
  intro h
  simp [ProblemUpdateset.toJson, ProblemUpdateset.allMissing, encodeOptField,
    encodePatchField] at h

end ItilBack
